import Mathlib

/-!
# Shallow embedding of the signal-detection and aggregation engine

This file embeds, in Lean 4, the core of the `screeeen` repository:
the detectors of `analysis/smart_money.py`, `analysis/patterns.py`,
`analysis/technical.py`, pieces of `data/data_processor.py`, the signal
aggregator `SignalGenerator.analyze_symbol` of `analysis/signals.py`,
and the multi-timeframe analyzer of `analysis/mtf_analysis.py`,
and proves or refutes the frozen behavioural claims about them.

Modelling conventions, used throughout:

* A pandas row is a `Candle` of rational (`ℚ`) open/high/low/close/volume
  values; a DataFrame is a `DataFrame` holding the candle rows together
  with the optional indicator columns that the embedded code consults
  (pandas `'col' in df` checks are `Option` matches here).
* Rational arithmetic replaces doubles.  The only place where the code's
  IEEE special values are observable to the claims is the RSI computation,
  which is therefore embedded over an explicit `PValue` type with
  NaN and signed infinities following IEEE semantics.
* pandas `rolling(window=w, center=True)` aggregations produce NaN where
  the centered window does not fit; these entries are modelled as `none`
  and every comparison with them is `false`, exactly as a float comparison
  with NaN evaluates in Python.
* Timestamp fields of detection records (`df.index[i]`, `datetime.now()`)
  are never consulted by the aggregator or by any claim and are omitted,
  as are the human-readable Russian `description` strings.
* Exceptions are modelled explicitly: the single `try/except` block of
  `analyze_symbol` is embedded as a runner over `Except` steps that keeps
  the signals accumulated before the first raising step and skips
  everything after it, mirroring CPython control flow.
-/

/-- One OHLCV row of the candle table (`open/high/low/close/volume`
columns of the pandas DataFrame). -/
structure Candle where
  openP : ℚ
  high : ℚ
  low : ℚ
  close : ℚ
  volume : ℚ
deriving DecidableEq, Repr

/-- A placeholder row used to totalize guarded positional accesses
(`df.iloc[i]`); every use site is protected by a bounds check mirroring
the Python code's own guards, so the placeholder is never observable. -/
def dummyCandle : Candle := ⟨0, 0, 0, 0, 0⟩

/-- The candle table handed to the engine: the five OHLCV columns as
`rows`, plus the optional indicator columns that the embedded code reads
(`'rsi' in df`, `'sma_20' in df`, ... are `Option` matches here), plus the
helper columns that `detect_break_of_structure` and `find_liquidity_zones`
assign onto the caller's frame in place (all `none` on a fresh frame). -/
structure DataFrame where
  rows : List Candle
  rsiCol : Option (List ℚ) := none
  macdCol : Option (List ℚ) := none
  macdSignalCol : Option (List ℚ) := none
  sma20Col : Option (List ℚ) := none
  sma50Col : Option (List ℚ) := none
  ema9Col : Option (List ℚ) := none
  ema21Col : Option (List ℚ) := none
  volRatioCol : Option (List ℚ) := none
  atrCol : Option (List ℚ) := none
  swingHighCol : Option (List (Option ℚ)) := none
  swingLowCol : Option (List (Option ℚ)) := none
  isSwingHighCol : Option (List Bool) := none
  isSwingLowCol : Option (List Bool) := none
  prevHighCol : Option (List (Option ℚ)) := none
  nextHighCol : Option (List (Option ℚ)) := none
  prevLowCol : Option (List (Option ℚ)) := none
  nextLowCol : Option (List (Option ℚ)) := none
deriving DecidableEq, Repr

namespace DataFrame

/-- The `high` column. -/
def highs (df : DataFrame) : List ℚ := df.rows.map Candle.high

/-- The `low` column. -/
def lows (df : DataFrame) : List ℚ := df.rows.map Candle.low

/-- The `close` column. -/
def closes (df : DataFrame) : List ℚ := df.rows.map Candle.close

/-- The `volume` column. -/
def volumes (df : DataFrame) : List ℚ := df.rows.map Candle.volume

end DataFrame

/-- `df['close'].iloc[-1]`: the latest close.  Callers in the embedded
code only evaluate it on non-empty frames (`len(df) >= 20` guards). -/
def lastClose (df : DataFrame) : ℚ := ((df.rows.getLast?).getD dummyCandle).close

/-- Python `xs[-n:]`: the last `n` elements (the whole list when it is
shorter), as used by `bos_signals[-2:]`, `fvgs[-3:]` and `df.tail(n)`. -/
def lastN (n : Nat) (l : List α) : List α := l.drop (l.length - n)

/-- Arithmetic mean of a list of rationals (`Series.mean()`); `0` on the
empty list, which the embedded code never hits thanks to its guards. -/
def qmean (l : List ℚ) : ℚ := l.sum / l.length

/-- Maximum of a list (`Series.max()`), `0` on the empty list. -/
def qmax (l : List ℚ) : ℚ :=
  match l with
  | [] => 0
  | h :: t => t.foldl max h

/-- Minimum of a list (`Series.min()`), `0` on the empty list. -/
def qmin (l : List ℚ) : ℚ :=
  match l with
  | [] => 0
  | h :: t => t.foldl min h

/-- Python `round(x, d)` modelled as decimal rounding of a rational.
The rounded values decorate signal payloads but no claim compares them
beyond exact small cases, so the half-even/half-up distinction of binary
floats is not observable. -/
def roundTo (q : ℚ) (d : Nat) : ℚ := (Int.floor (q * 10 ^ d + 1 / 2) : ℚ) / 10 ^ d

/-- `Series.rolling(window=2*k+1, center=True).max()`: entry `i` is the
maximum of the symmetric window of radius `k` around `i` when that window
fits inside the series, and NaN (`none`) otherwise, matching pandas'
`min_periods = window` default. -/
def rollCenterMax (xs : List ℚ) (k : Nat) : List (Option ℚ) :=
  (List.range xs.length).map fun i =>
    if k ≤ i ∧ i + k < xs.length then
      some (qmax ((xs.drop (i - k)).take (2 * k + 1)))
    else none

/-- `Series.rolling(window=2*k+1, center=True).min()`, as `rollCenterMax`. -/
def rollCenterMin (xs : List ℚ) (k : Nat) : List (Option ℚ) :=
  (List.range xs.length).map fun i =>
    if k ≤ i ∧ i + k < xs.length then
      some (qmin ((xs.drop (i - k)).take (2 * k + 1)))
    else none

/-- The values of `xs` at positions where `xs` equals its centered rolling
maximum of radius `k` (pattern `recent[recent['high'] == highs]['high']`);
positions whose rolling value is NaN never match, as in pandas. -/
def localMaxPoints (xs : List ℚ) (k : Nat) : List ℚ :=
  (xs.zip (rollCenterMax xs k)).filterMap fun p =>
    if p.2 = some p.1 then some p.1 else none

/-- As `localMaxPoints`, with the centered rolling minimum. -/
def localMinPoints (xs : List ℚ) (k : Nat) : List ℚ :=
  (xs.zip (rollCenterMin xs k)).filterMap fun p =>
    if p.2 = some p.1 then some p.1 else none

/-! ## Configuration (`config/settings.py`), at its shipped defaults -/

/-- `FVG_MIN_SIZE = 0.5`: minimum fair-value-gap size in percent. -/
def fvgMinSize : ℚ := 1 / 2

/-- `ORDER_BLOCK_LOOKBACK = 20`. -/
def orderBlockLookback : Nat := 20

/-- `MAX_SIGNALS_PER_COIN` with its default of `10` (the `int(os.getenv(...))`
fallback): the global cap on signals per symbol. -/
def maxSignalsPerCoin : Nat := 10

/-- `SHOW_CONFLUENCE` with its default of `True` (`os.getenv('SHOW_CONFLUENCE',
'true') == 'true'`). -/
def showConfluence : Bool := true

/-! ## Smart-money detectors (`analysis/smart_money.py`) -/

/-- One entry of the list built by `find_order_blocks`: the dict
`{'type', 'price_low', 'price_high', 'strength'}` (timestamp omitted). -/
structure ObRec where
  kind : String
  priceLow : ℚ
  priceHigh : ℚ
  strength : ℚ
deriving DecidableEq, Repr

/-- `SmartMoneyAnalysis.find_order_blocks`: for every candle `i` in
`range(lookback, len(df) - 1)`, the next candle is inspected; a candle
closing up (resp. down) whose high-low span exceeds 2% of its low (resp.
high) marks candle `i` as a bullish (resp. bearish) order block with the
impulse percentage as strength. -/
def findOrderBlocks (df : DataFrame) (lookback : Nat := orderBlockLookback) : List ObRec :=
  (List.range df.rows.length).filterMap fun i =>
    if lookback ≤ i ∧ i + 1 < df.rows.length then
      let current := df.rows.getD i dummyCandle
      let nextCandle := df.rows.getD (i + 1) dummyCandle
      if nextCandle.close > nextCandle.openP then
        let moveSize := (nextCandle.high - nextCandle.low) / nextCandle.low * 100
        if moveSize > 2 then
          some ⟨"bullish", current.low, current.high, moveSize⟩
        else none
      else if nextCandle.close < nextCandle.openP then
        let moveSize := (nextCandle.high - nextCandle.low) / nextCandle.high * 100
        if moveSize > 2 then
          some ⟨"bearish", current.low, current.high, moveSize⟩
        else none
      else none
    else none

/-- One entry of the list built by `find_fair_value_gaps`: the dict
`{'type', 'gap_low', 'gap_high', 'size', 'filled'}` (timestamp omitted). -/
structure FvgRec where
  kind : String
  gapLow : ℚ
  gapHigh : ℚ
  size : ℚ
  filled : Bool
deriving DecidableEq, Repr

/-- The body of the `find_fair_value_gaps` loop for one index `i` of
`range(2, len(df))`: compares candle `i-2` with candle `i`; a bullish gap
when the older high sits strictly below the newer low by at least
`min_gap_size` percent of the older high, and (`elif`) a bearish gap when
the older low sits strictly above the newer high by at least
`min_gap_size` percent of the newer high. -/
def fvgAt (df : DataFrame) (minGapSize : ℚ) (i : Nat) : Option FvgRec :=
  if 2 ≤ i ∧ i < df.rows.length then
    let candle1 := df.rows.getD (i - 2) dummyCandle
    let candle3 := df.rows.getD i dummyCandle
    if candle1.high < candle3.low then
      let gapSize := (candle3.low - candle1.high) / candle1.high * 100
      if minGapSize ≤ gapSize then
        some ⟨"bullish", candle1.high, candle3.low, gapSize, false⟩
      else none
    else if candle1.low > candle3.high then
      let gapSize := (candle1.low - candle3.high) / candle3.high * 100
      if minGapSize ≤ gapSize then
        some ⟨"bearish", candle3.high, candle1.low, gapSize, false⟩
      else none
    else none
  else none

/-- `SmartMoneyAnalysis.find_fair_value_gaps`: all gap records of the
3-candle scan, in index order. -/
def findFairValueGaps (df : DataFrame) (minGapSize : ℚ := fvgMinSize) : List FvgRec :=
  (List.range df.rows.length).filterMap (fvgAt df minGapSize)

/-- One entry of the list built by `detect_break_of_structure`: the dict
`{'type', 'previous_high'/'previous_low', 'new_high'/'new_low',
'strength'}`; the previous/new extremum pair is stored in `prevExtreme` /
`newExtreme` regardless of direction (timestamp omitted). -/
structure BosRec where
  kind : String
  prevExtreme : ℚ
  newExtreme : ℚ
  strength : ℚ
deriving DecidableEq, Repr

/-- The swing-high values of `detect_break_of_structure`: the `high`
entries equal to their centered rolling maximum of window
`swing_period * 2 + 1`. -/
def swingHighs (df : DataFrame) (swingPeriod : Nat) : List ℚ :=
  localMaxPoints df.highs swingPeriod

/-- The swing-low values of `detect_break_of_structure`. -/
def swingLows (df : DataFrame) (swingPeriod : Nat) : List ℚ :=
  localMinPoints df.lows swingPeriod

/-- `SmartMoneyAnalysis.detect_break_of_structure` (record list only; the
columns it assigns onto the caller's frame are modelled by
`detectBreakOfStructureFrame` below): every consecutive swing-high pair
that rises yields a bullish break-of-structure record, then every
consecutive swing-low pair that falls yields a bearish one. -/
def detectBreakOfStructure (df : DataFrame) (swingPeriod : Nat := 5) : List BosRec :=
  let sh := swingHighs df swingPeriod
  let sl := swingLows df swingPeriod
  ((sh.zip sh.tail).filterMap fun p =>
    if p.2 > p.1 then
      some ⟨"bullish_bos", p.1, p.2, (p.2 - p.1) / p.1 * 100⟩
    else none) ++
  ((sl.zip sl.tail).filterMap fun p =>
    if p.2 < p.1 then
      some ⟨"bearish_bos", p.1, p.2, (p.1 - p.2) / p.1 * 100⟩
    else none)

/-- `Series.shift(1)` as an `Option` column: entry `i` holds entry `i-1`
of the source, `none` (NaN) at the front. -/
def shiftPrevCol (xs : List ℚ) : List (Option ℚ) :=
  (List.range xs.length).map fun i =>
    if i = 0 then none else some (xs.getD (i - 1) 0)

/-- `Series.shift(-1)` as an `Option` column: entry `i` holds entry `i+1`
of the source, `none` (NaN) at the back. -/
def shiftNextCol (xs : List ℚ) : List (Option ℚ) :=
  (List.range xs.length).map fun i =>
    if i + 1 < xs.length then some (xs.getD (i + 1) 0) else none

/-- One entry of the list built by `find_liquidity_zones`: the dict
`{'type', 'price', 'touches'}` (timestamp omitted). -/
structure LiqZone where
  kind : String
  price : ℚ
  touches : Nat
deriving DecidableEq, Repr

/-- Whether `|x - other| / x < 0.002` holds against an optional
neighbour; a NaN neighbour (`none`) never matches, as the float
comparison is `False` in Python. -/
def nearNeighbor (x : ℚ) : Option ℚ → Bool
  | none => false
  | some y => |x - y| / x < 2 / 1000

/-- `SmartMoneyAnalysis.find_liquidity_zones` (record list only; the
shifted helper columns it assigns onto the caller's frame are modelled by
`findLiquidityZonesFrame` below): rows whose high (resp. low) is within
0.2% of the previous or next row's high (resp. low) yield
resistance-liquidity (resp. support-liquidity) zones, all highs first. -/
def findLiquidityZones (df : DataFrame) : List LiqZone :=
  let hs := df.highs
  let ls := df.lows
  ((hs.zip ((shiftPrevCol hs).zip (shiftNextCol hs))).filterMap fun p =>
    if nearNeighbor p.1 p.2.1 || nearNeighbor p.1 p.2.2 then
      some ⟨"resistance_liquidity", p.1, 2⟩
    else none) ++
  ((ls.zip ((shiftPrevCol ls).zip (shiftNextCol ls))).filterMap fun p =>
    if nearNeighbor p.1 p.2.1 || nearNeighbor p.1 p.2.2 then
      some ⟨"support_liquidity", p.1, 2⟩
    else none)

/-- One entry of the list built by `detect_liquidity_sweep`: the dict
`{'type', 'liquidity_level', 'sweep_high'/'sweep_low', 'current_price'}`
(timestamp omitted). -/
structure SweepRec where
  kind : String
  liquidityLevel : ℚ
  sweepExtreme : ℚ
  currentPrice : ℚ
deriving DecidableEq, Repr

/-- `SmartMoneyAnalysis.detect_liquidity_sweep`: a resistance zone whose
price the running maximum high exceeded while the latest close is back
below it is swept bearish; symmetric bullish sweep for support zones with
the running minimum low. -/
def detectLiquiditySweep (df : DataFrame) (zones : List LiqZone) : List SweepRec :=
  let currentPrice := lastClose df
  let highBreach := qmax df.highs
  let lowBreach := qmin df.lows
  zones.filterMap fun zone =>
    if zone.kind == "resistance_liquidity" then
      if highBreach > zone.price ∧ currentPrice < zone.price then
        some ⟨"bearish_sweep", zone.price, highBreach, currentPrice⟩
      else none
    else if zone.kind == "support_liquidity" then
      if lowBreach < zone.price ∧ currentPrice > zone.price then
        some ⟨"bullish_sweep", zone.price, lowBreach, currentPrice⟩
      else none
    else none

/-- The frame mutation performed by `detect_break_of_structure`: the
function assigns four helper columns onto the caller's DataFrame
(`df['swing_high'] = ...` and friends) before collecting its records, so
the caller's table gains columns it did not have. -/
def detectBreakOfStructureFrame (df : DataFrame) (swingPeriod : Nat := 5) :
    DataFrame × List BosRec :=
  let sh := rollCenterMax df.highs swingPeriod
  let sl := rollCenterMin df.lows swingPeriod
  ({ df with
      swingHighCol := some sh
      swingLowCol := some sl
      isSwingHighCol := some ((df.highs.zip sh).map fun p => p.2 == some p.1)
      isSwingLowCol := some ((df.lows.zip sl).map fun p => p.2 == some p.1) },
    detectBreakOfStructure df swingPeriod)

/-- The frame mutation performed by `find_liquidity_zones`: four shifted
helper columns are assigned onto the caller's DataFrame
(`df['prev_high'] = df['high'].shift(1)` and friends). -/
def findLiquidityZonesFrame (df : DataFrame) : DataFrame × List LiqZone :=
  ({ df with
      prevHighCol := some (shiftPrevCol df.highs)
      nextHighCol := some (shiftNextCol df.highs)
      prevLowCol := some (shiftPrevCol df.lows)
      nextLowCol := some (shiftNextCol df.lows) },
    findLiquidityZones df)

/-! ## Pattern detectors (`analysis/patterns.py`) -/

/-- One entry of the lists built by `PatternRecognition`: the dict
`{'type', 'direction', 'reliability', ...}`.  The per-pattern numeric
payload fields (mean levels, slopes, flagpole sizes, descriptions) are
never read back by the aggregator or by any claim and are omitted; the
decision logic producing each record is embedded in full. -/
structure PatternRec where
  kind : String
  direction : String
  reliability : String
deriving DecidableEq, Repr

/-- `np.polyfit(range(len(ys)), ys, 1)[0]`: the least-squares slope of
`ys` against `0, 1, 2, ...`. -/
def lsSlope (ys : List ℚ) : ℚ :=
  let m : ℚ := ys.length
  let xs : List ℚ := (List.range ys.length).map (fun i => (i : ℚ))
  let sx := xs.sum
  let sy := ys.sum
  let sxy := ((xs.zip ys).map fun p => p.1 * p.2).sum
  let sxx := (xs.map fun x => x * x).sum
  (m * sxy - sx * sy) / (m * sxx - sx * sx)

/-- `PatternRecognition.find_triangles` (default `lookback = 50`): on the
trailing `lookback` candles, fits lines through the rolling-window (5,
centered) local maxima of highs and minima of lows; a near-flat high line
with rising lows is an ascending triangle, a near-flat low line with
falling highs a descending triangle, and falling highs with rising lows a
symmetrical triangle. -/
def findTriangles (df : DataFrame) (lookback : Nat := 50) : List PatternRec :=
  if df.rows.length < lookback then []
  else
    let recent := lastN lookback df.rows
    let highPoints := localMaxPoints (recent.map Candle.high) 2
    let lowPoints := localMinPoints (recent.map Candle.low) 2
    if 2 ≤ highPoints.length ∧ 2 ≤ lowPoints.length then
      let highSlope := lsSlope highPoints
      let lowSlope := lsSlope lowPoints
      if |highSlope| < 1 / 1000 ∧ lowSlope > 0 then
        [⟨"ascending_triangle", "bullish", "high"⟩]
      else if |lowSlope| < 1 / 1000 ∧ highSlope < 0 then
        [⟨"descending_triangle", "bearish", "high"⟩]
      else if highSlope < 0 ∧ lowSlope > 0 then
        [⟨"symmetrical_triangle", "neutral", "medium"⟩]
      else []
    else []

/-- `PatternRecognition.find_head_and_shoulders` (default
`lookback = 100`): the three most recent rolling-window (7, centered)
peaks with a higher middle and outer peaks within 5% of each other give
the bearish head-and-shoulders; the mirrored test on troughs gives the
bullish inverse pattern. -/
def findHeadAndShoulders (df : DataFrame) (lookback : Nat := 100) : List PatternRec :=
  if df.rows.length < lookback then []
  else
    let recent := lastN lookback df.rows
    let peaks := localMaxPoints (recent.map Candle.high) 3
    let tops :=
      if 3 ≤ peaks.length then
        match lastN 3 peaks with
        | [p0, p1, p2] =>
          if p1 > p0 ∧ p1 > p2 ∧ |p0 - p2| / p0 < 5 / 100 then
            [(⟨"head_and_shoulders", "bearish", "high"⟩ : PatternRec)]
          else []
        | _ => []
      else []
    let valleys := localMinPoints (recent.map Candle.low) 3
    let bottoms :=
      if 3 ≤ valleys.length then
        match lastN 3 valleys with
        | [v0, v1, v2] =>
          if v1 < v0 ∧ v1 < v2 ∧ |v0 - v2| / v0 < 5 / 100 then
            [(⟨"inverse_head_and_shoulders", "bullish", "high"⟩ : PatternRec)]
          else []
        | _ => []
      else []
    tops ++ bottoms

/-- `PatternRecognition.find_flags_and_pennants`: a ≥5% net close-to-close
move between 30 and 20 candles ago (the flagpole) followed by a trailing
10-candle range below 70% of the trailing 30-candle average candle range
(the consolidation) yields a flag in the flagpole's direction. -/
def findFlagsAndPennants (df : DataFrame) : List PatternRec :=
  if df.rows.length < 30 then []
  else
    let n := df.rows.length
    let closeAt := fun (i : Nat) => (df.rows.getD i dummyCandle).close
    let priceChange := (closeAt (n - 20) - closeAt (n - 30)) / closeAt (n - 30)
    if |priceChange| > 5 / 100 then
      let consolidation := lastN 10 df.rows
      let volatility := qmax (consolidation.map Candle.high) - qmin (consolidation.map Candle.low)
      let avgVolatility := qmean (lastN 30 (df.rows.map fun c => c.high - c.low))
      if volatility < avgVolatility * (7 / 10) then
        if priceChange > 0 then [⟨"bull_flag", "bullish", "medium"⟩]
        else [⟨"bear_flag", "bearish", "medium"⟩]
      else []
    else []

/-- `PatternRecognition.find_double_top_bottom` (default `lookback = 50`):
the two most recent rolling-window (5, centered) peaks within 2% of each
other give a double top; the mirrored test on troughs a double bottom. -/
def findDoubleTopBottom (df : DataFrame) (lookback : Nat := 50) : List PatternRec :=
  if df.rows.length < lookback then []
  else
    let recent := lastN lookback df.rows
    let peaks := localMaxPoints (recent.map Candle.high) 2
    let tops :=
      if 2 ≤ peaks.length then
        match lastN 2 peaks with
        | [p0, p1] =>
          if |p0 - p1| / p0 < 2 / 100 then
            [(⟨"double_top", "bearish", "high"⟩ : PatternRec)]
          else []
        | _ => []
      else []
    let valleys := localMinPoints (recent.map Candle.low) 2
    let bottoms :=
      if 2 ≤ valleys.length then
        match lastN 2 valleys with
        | [v0, v1] =>
          if |v0 - v1| / v0 < 2 / 100 then
            [(⟨"double_bottom", "bullish", "high"⟩ : PatternRec)]
          else []
        | _ => []
      else []
    tops ++ bottoms

/-- `PatternRecognition.detect_candlestick_patterns`: the five
single/two-candle classifiers (hammer, shooting star, doji, bullish and
bearish engulfing) on the last two candles, each an independent `if`, in
source order. -/
def detectCandlestickPatterns (df : DataFrame) : List PatternRec :=
  if df.rows.length < 3 then []
  else
    let lastCandle := df.rows.getD (df.rows.length - 1) dummyCandle
    let prevCandle := df.rows.getD (df.rows.length - 2) dummyCandle
    let body := |lastCandle.close - lastCandle.openP|
    let upperShadow := lastCandle.high - max lastCandle.close lastCandle.openP
    let lowerShadow := min lastCandle.close lastCandle.openP - lastCandle.low
    let candleRange := lastCandle.high - lastCandle.low
    let prevBody := |prevCandle.close - prevCandle.openP|
    (if lowerShadow > body * 2 ∧ upperShadow < body * (3 / 10) ∧
        lastCandle.close > lastCandle.openP then
      [(⟨"hammer", "bullish", "medium"⟩ : PatternRec)] else []) ++
    (if upperShadow > body * 2 ∧ lowerShadow < body * (3 / 10) ∧
        lastCandle.close < lastCandle.openP then
      [(⟨"shooting_star", "bearish", "medium"⟩ : PatternRec)] else []) ++
    (if body < candleRange * (1 / 10) then
      [(⟨"doji", "neutral", "low"⟩ : PatternRec)] else []) ++
    (if prevCandle.close < prevCandle.openP ∧ lastCandle.close > lastCandle.openP ∧
        lastCandle.close > prevCandle.openP ∧ lastCandle.openP < prevCandle.close ∧
        body > prevBody then
      [(⟨"bullish_engulfing", "bullish", "high"⟩ : PatternRec)] else []) ++
    (if prevCandle.close > prevCandle.openP ∧ lastCandle.close < lastCandle.openP ∧
        lastCandle.close < prevCandle.openP ∧ lastCandle.openP > prevCandle.close ∧
        body > prevBody then
      [(⟨"bearish_engulfing", "bearish", "high"⟩ : PatternRec)] else [])

/-! ## Technical analysis (`analysis/technical.py`) -/

/-- The last value of an optional indicator column
(`df['col'].iloc[-1] if 'col' in df else None`): `none` both when the
column is absent and when the frame is empty. -/
def lastColVal (col : Option (List ℚ)) : Option ℚ := col.bind List.getLast?

/-- Python truthiness of an optional float as used by
`if sma_20 and ...`: `None` and `0.0` are falsy. -/
def truthyOpt : Option ℚ → Bool
  | none => false
  | some v => v != 0

/-- The dict returned by `TechnicalAnalysis.detect_trend`:
`{'trend': ..., 'strength': ...}`. -/
structure TrendInfo where
  trend : String
  strength : ℚ
deriving DecidableEq, Repr

/-- The moving-average vote of `detect_trend` for one optional MA value:
one bullish point when the price is above a truthy value, one bearish
point when below (`if sma and price > sma ... elif sma and price < sma`). -/
def maVote (currentPrice : ℚ) (ma : Option ℚ) : Nat × Nat :=
  match ma with
  | none => (0, 0)
  | some v =>
    if v ≠ 0 ∧ currentPrice > v then (1, 0)
    else if v ≠ 0 ∧ currentPrice < v then (0, 1)
    else (0, 0)

/-- `TechnicalAnalysis.detect_trend`: below 50 candles the trend is
unknown; otherwise price-versus-SMA(20/50) votes one point each and the
EMA(9)/EMA(21) crossover two points, and the majority side names the
trend with strength `|bull - bear| / total * 100`. -/
def detectTrend (df : DataFrame) : TrendInfo :=
  if df.rows.length < 50 then ⟨"unknown", 0⟩
  else
    let currentPrice := lastClose df
    let v20 := maVote currentPrice (lastColVal df.sma20Col)
    let v50 := maVote currentPrice (lastColVal df.sma50Col)
    let ema9 := lastColVal df.ema9Col
    let ema21 := lastColVal df.ema21Col
    let vEma : Nat × Nat :=
      if truthyOpt ema9 ∧ truthyOpt ema21 then
        if ema9.getD 0 > ema21.getD 0 then (2, 0) else (0, 2)
      else (0, 0)
    let bullish := v20.1 + v50.1 + vEma.1
    let bearish := v20.2 + v50.2 + vEma.2
    let total := bullish + bearish
    if total = 0 then ⟨"sideways", 0⟩
    else
      let strength := roundTo (|(bullish : ℚ) - bearish| / total * 100) 2
      if bullish > bearish then ⟨"bullish", strength⟩
      else if bearish > bullish then ⟨"bearish", strength⟩
      else ⟨"sideways", 0⟩

/-- `TechnicalAnalysis.calculate_strength_index`: a 0-100 score from up to
10 points (price above SMA20/SMA50/EMA21, healthy RSI band, MACD above
signal, volume ratio above 1, ATR above its mean), 0 below 50 candles. -/
def calculateStrengthIndex (df : DataFrame) : ℚ :=
  if df.rows.length < 50 then 0
  else
    let currentPrice := lastClose df
    let maScore : Nat :=
      (match lastColVal df.sma20Col with
        | some v => if currentPrice > v then 1 else 0
        | none => 0) +
      (match lastColVal df.sma50Col with
        | some v => if currentPrice > v then 1 else 0
        | none => 0) +
      (match lastColVal df.ema21Col with
        | some v => if currentPrice > v then 1 else 0
        | none => 0)
    let rsiScore : Nat :=
      match lastColVal df.rsiCol with
      | some r => if 40 < r ∧ r < 70 then 2 else if 30 < r ∧ r < 80 then 1 else 0
      | none => 0
    let macdScore : Nat :=
      match lastColVal df.macdCol, lastColVal df.macdSignalCol with
      | some m, some s => if m > s then 2 else 0
      | _, _ => 0
    let volScore : Nat :=
      match lastColVal df.volRatioCol with
      | some v => if v > 1 then 2 else 0
      | none => 0
    let atrScore : Nat :=
      match df.atrCol with
      | some col =>
        match col.getLast? with
        | some v => if v > qmean col then 1 else 0
        | none => 0
      | none => 0
    let score : Nat := maScore + rsiScore + macdScore + volScore + atrScore
    roundTo ((score : ℚ) / 10 * 100) 2

/-- One entry of the lists built by `find_rsi_divergence` /
`find_macd_divergence` (timestamps omitted; the MACD record carries no
numeric payload in the source either). -/
inductive DivRec
  | rsiDiv (kind : String) (pricePoint1 pricePoint2 rsiPoint1 rsiPoint2 : ℚ)
  | macdDiv (kind : String)
deriving DecidableEq, Repr

/-- The `'type'` field of a divergence record. -/
def DivRec.kind : DivRec → String
  | .rsiDiv k _ _ _ _ => k
  | .macdDiv k => k

/-- The price/oscillator pairs at rolling-window (5, centered) local
minima of the price values (pattern
`recent_df[recent_df['low'] == price_lows]` joined with the oscillator
column at the same rows). -/
def lowOscPoints (vals osc : List ℚ) : List (ℚ × ℚ) :=
  ((vals.zip (rollCenterMin vals 2)).zip osc).filterMap fun p =>
    if p.1.2 = some p.1.1 then some (p.1.1, p.2) else none

/-- As `lowOscPoints`, at local maxima. -/
def highOscPoints (vals osc : List ℚ) : List (ℚ × ℚ) :=
  ((vals.zip (rollCenterMax vals 2)).zip osc).filterMap fun p =>
    if p.1.2 = some p.1.1 then some (p.1.1, p.2) else none

/-- `TechnicalAnalysis.find_rsi_divergence` (default `lookback = 50`):
on the trailing window, a lower price low with a higher RSI is a bullish
divergence and a higher price high with a lower RSI a bearish one, each
judged on the last two located extrema. -/
def findRsiDivergence (df : DataFrame) (lookback : Nat := 50) : List DivRec :=
  match df.rsiCol with
  | none => []
  | some rsis =>
    if df.rows.length < lookback then []
    else
      let pairs := lastN lookback (df.rows.zip rsis)
      let lowPts := lowOscPoints (pairs.map fun p => p.1.low) (pairs.map Prod.snd)
      let highPts := highOscPoints (pairs.map fun p => p.1.high) (pairs.map Prod.snd)
      (if 2 ≤ lowPts.length then
        match lastN 2 lowPts with
        | [(l1, r1), (l2, r2)] =>
          if l2 < l1 ∧ r2 > r1 then [DivRec.rsiDiv "bullish" l1 l2 r1 r2] else []
        | _ => []
      else []) ++
      (if 2 ≤ highPts.length then
        match lastN 2 highPts with
        | [(h1, r1), (h2, r2)] =>
          if h2 > h1 ∧ r2 < r1 then [DivRec.rsiDiv "bearish" h1 h2 r1 r2] else []
        | _ => []
      else [])

/-- `TechnicalAnalysis.find_macd_divergence` (default `lookback = 50`):
as `find_rsi_divergence` with the MACD column. -/
def findMacdDivergence (df : DataFrame) (lookback : Nat := 50) : List DivRec :=
  match df.macdCol with
  | none => []
  | some macds =>
    if df.rows.length < lookback then []
    else
      let pairs := lastN lookback (df.rows.zip macds)
      let lowPts := lowOscPoints (pairs.map fun p => p.1.low) (pairs.map Prod.snd)
      let highPts := highOscPoints (pairs.map fun p => p.1.high) (pairs.map Prod.snd)
      (if 2 ≤ lowPts.length then
        match lastN 2 lowPts with
        | [(l1, m1), (l2, m2)] =>
          if l2 < l1 ∧ m2 > m1 then [DivRec.macdDiv "bullish"] else []
        | _ => []
      else []) ++
      (if 2 ≤ highPts.length then
        match lastN 2 highPts with
        | [(h1, m1), (h2, m2)] =>
          if h2 > h1 ∧ m2 < m1 then [DivRec.macdDiv "bearish"] else []
        | _ => []
      else [])

/-! ## RSI over IEEE special values (`data/data_processor.py`) -/

/-- A pandas float as far as `calculate_rsi` can observe it: a rational,
a signed infinity, or NaN.  Division of a positive mean by a zero mean
yields `pinf` (numpy float semantics), `0/0` yields `nan`. -/
inductive PValue
  | num (q : ℚ)
  | pinf
  | ninf
  | nan
deriving DecidableEq, Repr

/-- IEEE addition on `PValue` (restricted to the value combinations
reachable inside `calculate_rsi`, but total). -/
def PValue.add : PValue → PValue → PValue
  | .num a, .num b => .num (a + b)
  | .nan, _ => .nan
  | _, .nan => .nan
  | .pinf, .ninf => .nan
  | .ninf, .pinf => .nan
  | .pinf, _ => .pinf
  | _, .pinf => .pinf
  | .ninf, _ => .ninf
  | _, .ninf => .ninf

/-- IEEE subtraction on `PValue`. -/
def PValue.sub : PValue → PValue → PValue
  | .num a, .num b => .num (a - b)
  | .nan, _ => .nan
  | _, .nan => .nan
  | .pinf, .pinf => .nan
  | .ninf, .ninf => .nan
  | .pinf, _ => .pinf
  | _, .pinf => .ninf
  | .ninf, _ => .ninf
  | _, .ninf => .pinf

/-- IEEE division on `PValue`: in particular `a / 0` is a signed infinity
for `a ≠ 0` and NaN for `a = 0`, and a finite value divided by an
infinity is `0` — exactly the numpy behaviour of `gain / loss`. -/
def PValue.div : PValue → PValue → PValue
  | .nan, _ => .nan
  | _, .nan => .nan
  | .num a, .num b =>
    if b ≠ 0 then .num (a / b)
    else if a > 0 then .pinf
    else if a < 0 then .ninf
    else .nan
  | .num _, .pinf => .num 0
  | .num _, .ninf => .num 0
  | .pinf, .num b => if b < 0 then .ninf else .pinf
  | .ninf, .num b => if b < 0 then .pinf else .ninf
  | .pinf, _ => .nan
  | .ninf, _ => .nan

/-- The per-candle gain series of `calculate_rsi`:
`delta.where(delta > 0, 0)` with `delta = series.diff()`; the NaN of the
first difference is replaced by `0` because `NaN > 0` is false. -/
def rsiGains (closes : List ℚ) : List ℚ :=
  (List.range closes.length).map fun i =>
    if i = 0 then 0
    else max (closes.getD i 0 - closes.getD (i - 1) 0) 0

/-- The per-candle loss series of `calculate_rsi`:
`(-delta.where(delta < 0, 0))`. -/
def rsiLosses (closes : List ℚ) : List ℚ :=
  (List.range closes.length).map fun i =>
    if i = 0 then 0
    else max (closes.getD (i - 1) 0 - closes.getD i 0) 0

/-- One entry of `xs.rolling(window=period).mean()`: the mean of the `period`
trailing values once available, NaN before. -/
def rollMeanAt (xs : List ℚ) (period i : Nat) : PValue :=
  if period ≤ i + 1 ∧ i < xs.length then
    .num (qmean ((xs.drop (i + 1 - period)).take period))
  else .nan

/-- The rolling average gain of `calculate_rsi` at index `i`. -/
def rsiGainAvgAt (closes : List ℚ) (period i : Nat) : PValue :=
  rollMeanAt (rsiGains closes) period i

/-- The rolling average loss of `calculate_rsi` at index `i`. -/
def rsiLossAvgAt (closes : List ℚ) (period i : Nat) : PValue :=
  rollMeanAt (rsiLosses closes) period i

/-- One entry of the series returned by `DataProcessor.calculate_rsi`:
`100 - 100 / (1 + gain_avg / loss_avg)` in pandas float arithmetic. -/
def rsiAt (closes : List ℚ) (period i : Nat) : PValue :=
  let rs := PValue.div (rsiGainAvgAt closes period i) (rsiLossAvgAt closes period i)
  PValue.sub (.num 100) (PValue.div (.num 100) (PValue.add (.num 1) rs))

/-- `DataProcessor.calculate_rsi` (default `period = 14`), the full
series. -/
def calculateRsi (closes : List ℚ) (period : Nat := 14) : List PValue :=
  (List.range closes.length).map (rsiAt closes period)

/-! ## The signal aggregator (`analysis/signals.py`, `SignalGenerator`) -/

/-- The `levels` dict handed to `analyze_symbol`
(`{'support': [...], 'resistance': [...]}`, either list possibly empty). -/
structure Levels where
  support : List ℚ := []
  resistance : List ℚ := []
deriving DecidableEq, Repr

/-- The `details` payload of a signal, one constructor per signal
category (the dict stored under `'details'`).  No constructor exists for
`volume_spike` because the detector that would build its payload,
`DataProcessor.detect_volume_anomaly`, does not exist in the repository. -/
inductive Details
  | bosD (r : BosRec)
  | levelApproachD (levelType : String) (levelPrice distancePercent : ℚ)
  | breakoutD (brokenLevel : ℚ) (volumeConfirmed : Bool) (volRatioVal : ℚ)
  | falseBreakoutD (failedLevel : ℚ) (levelType : String) (fakeExtreme : ℚ)
  | fvgD (r : FvgRec)
  | orderBlockD (r : ObRec)
  | sweepD (r : SweepRec)
  | divergenceD (r : DivRec)
  | patternD (r : PatternRec)
  | confluenceD (factorsCount uniqueTypes : Nat) (signalTypes : List String)
deriving DecidableEq, Repr

/-- A signal dict as built by `SignalGenerator._create_signal`, with the
optional keys (`trend`, `strength_index`, `rsi`, `macd`) that the
annotation loop of `analyze_symbol` adds afterwards (`datetime.now()`
timestamp omitted). -/
structure Signal where
  symbol : String
  stype : String
  direction : String
  price : ℚ
  details : Details
  priority : String
  trendAnn : Option TrendInfo := none
  strengthIdx : Option ℚ := none
  rsiVal : Option ℚ := none
  macdVal : Option ℚ := none
deriving DecidableEq, Repr

/-- `SignalGenerator._create_signal`: the freshly created dict carries
none of the post-hoc annotation keys. -/
def mkSignal (symbol stype direction : String) (price : ℚ) (details : Details)
    (priority : String) : Signal :=
  { symbol := symbol, stype := stype, direction := direction, price := price,
    details := details, priority := priority }

/-- `SignalGenerator._check_level_approach`: a high-priority approach
signal for every one of the top-3 support (bullish) and top-3 resistance
(bearish) levels within 1.5% of the current price. -/
def checkLevelApproach (_df : DataFrame) (levels : Levels) (currentPrice : ℚ)
    (symbol : String) : List Signal :=
  let threshold : ℚ := 15 / 1000
  ((levels.support.take 3).filterMap fun s =>
    let distance := |currentPrice - s| / currentPrice
    if distance < threshold then
      some (mkSignal symbol "level_approach" "bullish" currentPrice
        (.levelApproachD "support" s (roundTo (distance * 100) 2)) "high")
    else none) ++
  ((levels.resistance.take 3).filterMap fun r =>
    let distance := |currentPrice - r| / currentPrice
    if distance < threshold then
      some (mkSignal symbol "level_approach" "bearish" currentPrice
        (.levelApproachD "resistance" r (roundTo (distance * 100) 2)) "high")
    else none)

/-- `SignalGenerator._check_breakouts`: a breakout signal for every one of
the top-2 levels per side that the close crossed since the previous
candle, high priority when the latest volume exceeds 1.5× the trailing
20-candle average and medium otherwise. -/
def checkBreakouts (df : DataFrame) (levels : Levels) (currentPrice : ℚ)
    (symbol : String) : List Signal :=
  if df.rows.length < 2 then []
  else
    let prevPrice := (df.rows.getD (df.rows.length - 2) dummyCandle).close
    let currentVolume := (df.volumes.getLast?).getD 0
    let avgVolume := qmean (lastN 20 df.volumes)
    ((levels.resistance.take 2).filterMap fun r =>
      if prevPrice < r ∧ currentPrice > r then
        let volumeConfirm := decide (currentVolume > avgVolume * (3 / 2))
        some (mkSignal symbol "breakout" "bullish" currentPrice
          (.breakoutD r volumeConfirm (roundTo (currentVolume / avgVolume) 2))
          (if volumeConfirm then "high" else "medium"))
      else none) ++
    ((levels.support.take 2).filterMap fun s =>
      if prevPrice > s ∧ currentPrice < s then
        let volumeConfirm := decide (currentVolume > avgVolume * (3 / 2))
        some (mkSignal symbol "breakout" "bearish" currentPrice
          (.breakoutD s volumeConfirm (roundTo (currentVolume / avgVolume) 2))
          (if volumeConfirm then "high" else "medium"))
      else none)

/-- `SignalGenerator._check_false_breakouts`: a false-breakout signal for
every one of the top-2 levels per side that the last 5 candles' extreme
pierced while the close is back on the original side and the
second-to-last close was still beyond the level. -/
def checkFalseBreakouts (df : DataFrame) (levels : Levels) (symbol : String) :
    List Signal :=
  if df.rows.length < 5 then []
  else
    let recent := lastN 5 df.rows
    let currentPrice := lastClose df
    let recentHighMax := qmax (recent.map Candle.high)
    let recentLowMin := qmin (recent.map Candle.low)
    let prevClose := (recent.getD (recent.length - 2) dummyCandle).close
    ((levels.resistance.take 2).filterMap fun r =>
      if recentHighMax > r ∧ currentPrice < r ∧ prevClose > r then
        some (mkSignal symbol "false_breakout" "bearish" currentPrice
          (.falseBreakoutD r "resistance" recentHighMax) "high")
      else none) ++
    ((levels.support.take 2).filterMap fun s =>
      if recentLowMin < s ∧ currentPrice > s ∧ prevClose < s then
        some (mkSignal symbol "false_breakout" "bullish" currentPrice
          (.falseBreakoutD s "support" recentLowMin) "high")
      else none)

/-- Step 1 of `analyze_symbol`: the last 2 break-of-structure records as
high-priority signals.  The source classifies the direction by the
substring test `'bullish' in bos['type']`; on the two reachable record
kinds (`bullish_bos` / `bearish_bos`) this is the equality test used
here. -/
def structureBreakSignals (df : DataFrame) (symbol : String) (currentPrice : ℚ) :
    List Signal :=
  (lastN 2 (detectBreakOfStructure df)).map fun bos =>
    mkSignal symbol "structure_break"
      (if bos.kind == "bullish_bos" then "bullish" else "bearish")
      currentPrice (.bosD bos) "high"

/-- Step 5 of `analyze_symbol`: the last 3 fair-value gaps, skipping
filled ones (freshly detected gaps are never filled), as medium-priority
signals. -/
def imbalanceSignals (df : DataFrame) (symbol : String) (currentPrice : ℚ) :
    List Signal :=
  (lastN 3 (findFairValueGaps df)).filterMap fun fvg =>
    if !fvg.filled then
      some (mkSignal symbol "imbalance" fvg.kind currentPrice (.fvgD fvg) "medium")
    else none

/-- Step 6 of `analyze_symbol`: the 2 strongest order blocks (stable sort
by strength, descending, as Python's `sorted(..., reverse=True)`) as
high-priority signals. -/
def orderBlockSignals (df : DataFrame) (symbol : String) (currentPrice : ℚ) :
    List Signal :=
  (((findOrderBlocks df).mergeSort fun a b => b.strength ≤ a.strength).take 2).map
    fun ob => mkSignal symbol "order_block" ob.kind currentPrice (.orderBlockD ob) "high"

/-- Step 7 of `analyze_symbol`: the first 2 liquidity sweeps over the
detected liquidity zones as high-priority signals (direction by the
substring test `'bullish' in sweep['type']`, an equality test on the two
reachable kinds). -/
def liquiditySweepSignals (df : DataFrame) (symbol : String) (currentPrice : ℚ) :
    List Signal :=
  ((detectLiquiditySweep df (findLiquidityZones df)).take 2).map fun sweep =>
    mkSignal symbol "liquidity_sweep"
      (if sweep.kind == "bullish_sweep" then "bullish" else "bearish")
      currentPrice (.sweepD sweep) "high"

/-- Step 8 of `analyze_symbol`: the first 2 of the RSI divergences
followed by the MACD divergences, as high-priority signals. -/
def divergenceSignals (df : DataFrame) (symbol : String) (currentPrice : ℚ) :
    List Signal :=
  ((findRsiDivergence df ++ findMacdDivergence df).take 2).map fun d =>
    mkSignal symbol "divergence" d.kind currentPrice (.divergenceD d) "high"

/-- Step 9 of `analyze_symbol`: the first 3 patterns of high or medium
reliability across all five pattern detectors, priority medium for high
reliability and low otherwise. -/
def patternSignals (df : DataFrame) (symbol : String) (currentPrice : ℚ) :
    List Signal :=
  let allPatterns := findTriangles df ++ findHeadAndShoulders df ++
    findFlagsAndPennants df ++ findDoubleTopBottom df ++ detectCandlestickPatterns df
  let highReliability := allPatterns.filter fun p =>
    p.reliability == "high" || p.reliability == "medium"
  (highReliability.take 3).map fun p =>
    mkSignal symbol "pattern" p.direction currentPrice (.patternD p)
      (if p.reliability == "high" then "medium" else "low")

/-- The `if '<name>' in enabled_signals:` gate around one category block:
a disabled category contributes nothing. -/
def gatedList (name : String) (enabled : List String) (sigs : List Signal) :
    List Signal :=
  if name ∈ enabled then sigs else []

/-- The nine signal lists contributed by steps 1-9 of the `try` block of
`analyze_symbol`, in evaluation order, each behind its enabled-category
gate. -/
def categoryLists (df : DataFrame) (symbol : String) (currentPrice : ℚ)
    (levels : Levels) (enabled : List String) : List (List Signal) :=
  [gatedList "structure_break" enabled (structureBreakSignals df symbol currentPrice),
   gatedList "level_approach" enabled ((checkLevelApproach df levels currentPrice symbol).take 3),
   gatedList "breakout" enabled ((checkBreakouts df levels currentPrice symbol).take 2),
   gatedList "false_breakout" enabled ((checkFalseBreakouts df levels symbol).take 2),
   gatedList "imbalance" enabled (imbalanceSignals df symbol currentPrice),
   gatedList "order_block" enabled (orderBlockSignals df symbol currentPrice),
   gatedList "liquidity_sweep" enabled (liquiditySweepSignals df symbol currentPrice),
   gatedList "divergence" enabled (divergenceSignals df symbol currentPrice),
   gatedList "pattern" enabled (patternSignals df symbol currentPrice)]

/-- All signals accumulated by `analyze_symbol` before its step 10
(`volume_spike`) executes. -/
def preVolumeSignals (df : DataFrame) (symbol : String) (currentPrice : ℚ)
    (levels : Levels) (enabled : List String) : List Signal :=
  (categoryLists df symbol currentPrice levels enabled).flatten

/-- A Python exception observable at the `analyze_symbol` boundary. -/
inductive PyErr
  | attributeError
  | indexError
deriving DecidableEq, Repr

/-- The steps of the `try` block of `analyze_symbol` as `Except`
computations: steps 1-9 are total, and step 10 (`volume_spike`), when
enabled, unconditionally raises `AttributeError` because it calls
`self.processor.detect_volume_anomaly(df)` and `DataProcessor` defines no
such method anywhere in the repository. -/
def catSteps (df : DataFrame) (symbol : String) (currentPrice : ℚ)
    (levels : Levels) (enabled : List String) : List (Except PyErr (List Signal)) :=
  (categoryLists df symbol currentPrice levels enabled).map Except.ok ++
  [if "volume_spike" ∈ enabled then .error .attributeError else .ok []]

/-- CPython control flow of a `try` block accumulating into
`all_signals`: each successful step appends its signals; the first
raising step aborts the rest of the block, keeping what was accumulated
(the `except` branch only logs).  Returns the accumulated signals and
whether an exception was caught. -/
def runTry : List (Except PyErr (List Signal)) → List Signal × Bool
  | [] => ([], false)
  | .ok s :: rest =>
    let r := runTry rest
    (s ++ r.1, r.2)
  | .error _ :: _ => ([], true)

/-- The annotation loop of `analyze_symbol` (lines 170-179) on one
signal: trend, strength index, and — when the columns exist — rounded
RSI and MACD values. -/
def annotateSignal (df : DataFrame) (s : Signal) : Signal :=
  { s with
      trendAnn := some (detectTrend df)
      strengthIdx := some (calculateStrengthIndex df)
      rsiVal := (lastColVal df.rsiCol).map (roundTo · 2)
      macdVal := (lastColVal df.macdCol).map (roundTo · 4) }

/-- `SignalGenerator._find_confluence_zones`: at most one critical
bullish and one critical bearish confluence signal, each synthesized
exactly when at least 3 distinct signal types of that direction occur
among the already-selected signals.  (`list(set(...))` iterates in an
unspecified hash order in Python; here the distinct types keep a
deterministic order.) -/
def findConfluenceZones (signals : List Signal) (currentPrice : ℚ)
    (symbol : String) : List Signal :=
  let bullishSignals := signals.filter fun s => s.direction == "bullish"
  let bearishSignals := signals.filter fun s => s.direction == "bearish"
  let bullishTypes := (bullishSignals.map Signal.stype).dedup
  let bearishTypes := (bearishSignals.map Signal.stype).dedup
  (if 3 ≤ bullishTypes.length then
    [mkSignal symbol "confluence" "bullish" currentPrice
      (.confluenceD bullishSignals.length bullishTypes.length bullishTypes) "critical"]
  else []) ++
  (if 3 ≤ bearishTypes.length then
    [mkSignal symbol "confluence" "bearish" currentPrice
      (.confluenceD bearishSignals.length bearishTypes.length bearishTypes) "critical"]
  else [])

/-- The default category list substituted when `enabled_signals is None`. -/
def defaultEnabledSignals : List String :=
  ["structure_break", "level_approach", "breakout", "false_breakout",
   "imbalance", "order_block", "liquidity_sweep", "divergence", "pattern",
   "volume_spike", "confluence"]

/-- The whole `try` block of `analyze_symbol`: run the category steps;
if one raised, the accumulated signals are returned as-is (annotation and
confluence are skipped by the jump to `except`); otherwise every signal
is annotated and, behind the `SHOW_CONFLUENCE` flag, the confluence step
extends the list. -/
def tryBody (df : DataFrame) (symbol : String) (currentPrice : ℚ)
    (levels : Levels) (enabled : List String) : List Signal :=
  match runTry (catSteps df symbol currentPrice levels enabled) with
  | (sigs, true) => sigs
  | (sigs, false) =>
    let annotated := sigs.map (annotateSignal df)
    if showConfluence = true ∧ "confluence" ∈ enabled ∧ 3 ≤ annotated.length then
      annotated ++ findConfluenceZones annotated currentPrice symbol
    else annotated

/-- `SignalGenerator.analyze_symbol` with its exception behaviour
explicit: `.error` would mean an exception escaping to the caller.  The
`df is None` guard of the source is subsumed by the length guard (a
missing frame yields `[]` the same way); the only positional access
outside the `try` block, `df['close'].iloc[-1]`, is modelled by the
`getLast?` match. -/
def analyzeSymbolE (df : DataFrame) (symbol : String) (levels : Levels)
    (enabledOpt : Option (List String)) : Except PyErr (List Signal) :=
  if df.rows.length < 20 then .ok []
  else
    match df.rows.getLast? with
    | none => .error .indexError
    | some lastCandle =>
      let currentPrice := lastCandle.close
      let enabled := enabledOpt.getD defaultEnabledSignals
      .ok ((tryBody df symbol currentPrice levels enabled).take maxSignalsPerCoin)

/-- The list `analyze_symbol` hands back to its caller. -/
def analyzeSymbol (df : DataFrame) (symbol : String) (levels : Levels)
    (enabledOpt : Option (List String)) : List Signal :=
  match analyzeSymbolE df symbol levels enabledOpt with
  | .ok l => l
  | .error _ => []

/-- Modelled from the spec: `DataProcessor.detect_volume_anomaly`, the
volume-anomaly test that `analyze_symbol` step 10 calls but that is
missing from the repository — "current volume > 2× trailing 20-period
average" (the spec's §4.6 volume-anomaly rule). -/
def detectVolumeAnomalySpec (df : DataFrame) : Bool :=
  decide ((df.volumes.getLast?).getD 0 > 2 * qmean (lastN 20 df.volumes))

/-! ## Multi-timeframe analysis (`analysis/mtf_analysis.py`, `MTFAnalyzer`) -/

/-- `Series.ewm(span=span, adjust=False).mean()`: the standard recursive
exponential smoothing with weight `2 / (span + 1)`, seeded by the first
value. -/
def emaCol (span : Nat) (xs : List ℚ) : List ℚ :=
  let w : ℚ := 2 / ((span : ℚ) + 1)
  (xs.foldl (fun acc x =>
    match acc with
    | [] => [x]
    | prev :: _ => (w * x + (1 - w) * prev) :: acc) []).reverse

/-- The last value of `Series.rolling(window=w).mean()`: defined once at
least `w` values exist, NaN (`none`) before. -/
def smaLast (w : Nat) (xs : List ℚ) : Option ℚ :=
  if w ≤ xs.length then some (qmean (lastN w xs)) else none

/-- One value of the per-timeframe analysis dict built by
`MTFAnalyzer._analyze_timeframe`. -/
structure TfEntry where
  trend : String
  rsiVal : Option ℚ
  rsiState : String
  macdState : String
  maPosition : String
  momentum : String
  price : ℚ
  volumeTrend : String
deriving DecidableEq, Repr

/-- `MTFAnalyzer._get_rsi_state` on a possibly-NaN RSI value. -/
def getRsiState : PValue → String
  | .nan => "neutral"
  | .pinf => "overbought"
  | .ninf => "oversold"
  | .num r =>
    if r < 30 then "oversold"
    else if r > 70 then "overbought"
    else if r < 40 then "weak"
    else if r > 60 then "strong"
    else "neutral"

/-- `MTFAnalyzer._determine_trend` on a frame whose EMA columns were just
computed by `add_technical_indicators` (EMA with `adjust=False` is never
NaN on a non-empty series, so the `pd.isna` guard cannot fire). -/
def mtfDetermineTrend (closes : List ℚ) : String :=
  let cp := (closes.getLast?).getD 0
  let e21 := ((emaCol 21 closes).getLast?).getD 0
  let e55 := ((emaCol 55 closes).getLast?).getD 0
  if cp > e21 ∧ e21 > e55 then "uptrend"
  else if cp < e21 ∧ e21 < e55 then "downtrend"
  else "sideways"

/-- `MTFAnalyzer._get_ma_position`: position of the close against
SMA(20) and SMA(50), neutral while either is still NaN. -/
def getMaPosition (closes : List ℚ) : String :=
  match smaLast 20 closes, smaLast 50 closes with
  | some s20, some s50 =>
    let price := (closes.getLast?).getD 0
    if price > s20 ∧ s20 > s50 then "above_all"
    else if price < s20 ∧ s20 < s50 then "below_all"
    else "mixed"
  | _, _ => "neutral"

/-- `MTFAnalyzer._calculate_momentum`: percent change of the close over
the last 10 candles, bucketed at ±0.5% and ±2%. -/
def calculateMomentum (closes : List ℚ) : String :=
  let currentPrice := (closes.getLast?).getD 0
  let pastPrice := closes.getD (closes.length - 10) 0
  let change := (currentPrice - pastPrice) / pastPrice * 100
  if change > 2 then "strong_bullish"
  else if change > 1 / 2 then "bullish"
  else if change < -2 then "strong_bearish"
  else if change < -(1 / 2) then "bearish"
  else "neutral"

/-- The dict built by `MTFAnalyzer._analyze_timeframe` for a frame with
at least 50 candles, after `add_technical_indicators` decorated it. -/
def mkTfEntry (df : DataFrame) : TfEntry :=
  let closes := df.closes
  let n := closes.length
  let rsiLast := rsiAt closes 14 (n - 1)
  let macdLine := (((emaCol 12 closes).zip (emaCol 26 closes)).map fun p => p.1 - p.2)
  let signalLine := emaCol 9 macdLine
  { trend := mtfDetermineTrend closes
    rsiVal := match rsiLast with | .num r => some r | _ => none
    rsiState := getRsiState rsiLast
    macdState :=
      if (macdLine.getLast?).getD 0 > (signalLine.getLast?).getD 0 then "bullish"
      else "bearish"
    maPosition := getMaPosition closes
    momentum := calculateMomentum closes
    price := (closes.getLast?).getD 0
    volumeTrend :=
      if ((df.volumes.getLast?).getD 0) > qmean (lastN 20 df.volumes) then "increasing"
      else "decreasing" }

/-- `MTFAnalyzer._analyze_timeframe`: `None` (no entry) when the fetch
returned nothing or fewer than 50 candles; otherwise the per-timeframe
analysis dict. -/
def analyzeTimeframe (dfOpt : Option DataFrame) : Option TfEntry :=
  match dfOpt with
  | none => none
  | some df => if df.rows.length < 50 then none else some (mkTfEntry df)

/-- The `results['timeframes']` dict of `MTFAnalyzer.analyze_symbol`:
one entry per timeframe whose analysis succeeded, keyed by the timeframe
label, in timeframe order (the fetched frames are the model's input, the
exchange being an external collaborator). -/
def mtfEntries (data : List (String × Option DataFrame)) : List (String × TfEntry) :=
  data.filterMap fun p => (analyzeTimeframe p.2).map fun e => (p.1, e)

/-- `MTFAnalyzer._calculate_alignment_score`: the larger of the uptrend
count and the downtrend count among the evaluated timeframes, as a
rounded percentage of their number.  Sideways and neutral trends are
never counted as the majority. -/
def alignmentScore (tfs : List (String × TfEntry)) : ℚ :=
  if tfs.isEmpty then 0
  else
    let trends := tfs.map fun p => p.2.trend
    let uptrendCount := trends.count "uptrend"
    let downtrendCount := trends.count "downtrend"
    roundTo ((max uptrendCount downtrendCount : ℚ) / trends.length * 100) 2

/-- The alignment score as the spec sentence words it: the count of the
majority trend direction among the evaluated timeframes — whatever that
direction is — divided by the number of evaluated timeframes, times 100. -/
def alignmentScoreSpec (tfs : List (String × TfEntry)) : ℚ :=
  if tfs.isEmpty then 0
  else
    let trends := tfs.map fun p => p.2.trend
    let majorityCount := (trends.map fun t => trends.count t).foldr max 0
    (majorityCount : ℚ) / trends.length * 100

/-- `MTFAnalyzer.self.timeframes`: the fixed timeframe set. -/
def mtfTimeframes : List String := ["15m", "1h", "4h", "1d"]

/-- `MTFAnalyzer._get_recommendation`: weighted vote (trend ±2, MACD ±1,
momentum ±1 per timeframe) combined with the alignment score. -/
def getRecommendation (tfs : List (String × TfEntry)) (alignment : ℚ) : String :=
  if tfs.isEmpty then "neutral"
  else
    let bullishVotes := (tfs.map fun p =>
      (if p.2.trend == "uptrend" then 2 else 0) +
      (if p.2.macdState == "bullish" then 1 else 0) +
      (if p.2.momentum == "bullish" || p.2.momentum == "strong_bullish" then 1 else 0)).sum
    let bearishVotes := (tfs.map fun p =>
      (if p.2.trend == "downtrend" then 2 else 0) +
      (if p.2.macdState == "bearish" then 1 else 0) +
      (if p.2.momentum == "bearish" || p.2.momentum == "strong_bearish" then 1 else 0)).sum
    if (bullishVotes : ℚ) > (bearishVotes : ℚ) * (3 / 2) ∧ alignment > 60 then "strong_buy"
    else if bullishVotes > bearishVotes then "buy"
    else if (bearishVotes : ℚ) > (bullishVotes : ℚ) * (3 / 2) ∧ alignment > 60 then "strong_sell"
    else if bearishVotes > bullishVotes then "sell"
    else "neutral"

/-- `MTFAnalyzer._calculate_confidence`: `0.6 × alignment` plus
timeframe-coverage and strong-momentum bonuses, capped at 100. -/
def calculateConfidence (tfs : List (String × TfEntry)) (alignment : ℚ) : ℚ :=
  if tfs.isEmpty then 0
  else
    let tfCount := tfs.length
    let strongMomentumCount := (tfs.filter fun p =>
      p.2.momentum == "strong_bullish" || p.2.momentum == "strong_bearish").length
    let confidence := alignment * (6 / 10) +
      ((tfCount : ℚ) / mtfTimeframes.length) * 20 +
      ((strongMomentumCount : ℚ) / tfCount) * 20
    min (roundTo confidence 2) 100

/-- The result dict of `MTFAnalyzer.analyze_symbol` (symbol echo
omitted). -/
structure MtfResult where
  timeframes : List (String × TfEntry)
  alignment : ℚ
  recommendation : String
  confidence : ℚ
deriving DecidableEq, Repr

/-- `MTFAnalyzer.analyze_symbol` over already-fetched per-timeframe
frames: timeframes without enough data are skipped; with no surviving
timeframe the neutral default is returned. -/
def mtfAnalyzeSymbol (data : List (String × Option DataFrame)) : MtfResult :=
  let tfs := mtfEntries data
  if tfs.isEmpty then ⟨[], 0, "neutral", 0⟩
  else
    let align := alignmentScore tfs
    ⟨tfs, align, getRecommendation tfs align, calculateConfidence tfs align⟩

/-- The signal types that steps 1-9 of `analyze_symbol` can produce. -/
def preVolumeTypes : List String :=
  ["structure_break", "level_approach", "breakout", "false_breakout",
   "imbalance", "order_block", "liquidity_sweep", "divergence", "pattern"]

/-! ## Concrete fixtures used by the claim theorems -/

/-- A flat 100-candle: open = high = low = close = 100, volume 100. -/
def flatCandle : Candle := ⟨100, 100, 100, 100, 100⟩

/-- A 20-candle flat series at price 100. -/
def df0 : DataFrame := { rows := [flatCandle, flatCandle, flatCandle, flatCandle, flatCandle, flatCandle, flatCandle, flatCandle, flatCandle, flatCandle, flatCandle, flatCandle, flatCandle, flatCandle, flatCandle, flatCandle, flatCandle, flatCandle, flatCandle, flatCandle] }

/-- A single support level exactly at the flat price. -/
def lev0 : Levels := { support := [100] }

/-- Base candle of the confluence scenario: a quiet 97.5-98.5 range. -/
def c4base : Candle := ⟨98, 197 / 2, 195 / 2, 98, 100⟩

/-- 20 candles: 18 quiet ones, a dip to 97, then a surge closing at 100 —
crafted so that level-approach, breakout and false-breakout all fire
bullish at once. -/
def df4 : DataFrame :=
  { rows := [c4base, c4base, c4base, c4base, c4base, c4base, c4base, c4base, c4base, c4base, c4base, c4base, c4base, c4base, c4base, c4base, c4base, c4base, ⟨98, 197 / 2, 97, 98, 100⟩, ⟨99, 201 / 2, 99, 100, 100⟩] }

/-- Supports at 99 and 98.5 and a resistance at 99.5 for the confluence
scenario. -/
def lev4 : Levels := { support := [99, 197 / 2], resistance := [199 / 2] }

/-- The enabled categories of the confluence scenario (no `volume_spike`,
so the aggregator reaches the confluence step). -/
def en4 : List String := ["level_approach", "breakout", "false_breakout", "confluence"]

/-- The confluence signal the `df4` scenario synthesizes. -/
def sC4 : Signal :=
  mkSignal "SYM" "confluence" "bullish" 100
    (.confluenceD 4 3 ["level_approach", "breakout", "false_breakout"]) "critical"

/-- A 20-candle flat series whose last candle trades 10× the usual
volume: the latest volume (1000) exceeds twice the trailing 20-candle
average (145), so the spec's volume anomaly holds. -/
def dfSpike : DataFrame :=
  { rows := [flatCandle, flatCandle, flatCandle, flatCandle, flatCandle, flatCandle, flatCandle, flatCandle, flatCandle, flatCandle, flatCandle, flatCandle, flatCandle, flatCandle, flatCandle, flatCandle, flatCandle, flatCandle, flatCandle, ⟨100, 100, 100, 100, 1000⟩] }

/-- The spec's §8 fair-value-gap scenario: candle 0 high 100, candle 2
low 103.5, a 3.5% bullish gap. -/
def gapDf : DataFrame :=
  { rows := [⟨199 / 2, 100, 99, 100, 100⟩, ⟨101, 102, 201 / 2, 102, 100⟩,
             ⟨104, 209 / 2, 207 / 2, 104, 100⟩] }

/-- A one-candle frame, shorter than every detector's minimum length. -/
def dfTiny : DataFrame := { rows := [⟨1, 2, 1, 2, 1⟩] }

/-- A strictly increasing 14-close series: every loss is zero past the
first candle. -/
def inc14 : List ℚ := [1, 2, 3, 4, 5, 6, 7, 8, 9, 10, 11, 12, 13, 14]

/-- A sideways per-timeframe entry (constant-price shape). -/
def tfSideways : TfEntry :=
  ⟨"sideways", none, "neutral", "bearish", "mixed", "neutral", 100, "decreasing"⟩

/-- An uptrend per-timeframe entry. -/
def tfUptrend : TfEntry :=
  ⟨"uptrend", some 60, "neutral", "bullish", "above_all", "bullish", 100, "increasing"⟩

/-- Four evaluated timeframes, three sideways and one uptrend: the
majority trend is `sideways`. -/
def exEntries : List (String × TfEntry) :=
  [("15m", tfSideways), ("1h", tfSideways), ("4h", tfSideways), ("1d", tfUptrend)]

/-- A well-formed OHLCV row set: positive prices with `low ≤ high` on
every candle (what any real candle series satisfies). -/
def wellFormedDf (df : DataFrame) : Prop :=
  ∀ c ∈ df.rows, 0 < c.low ∧ c.low ≤ c.high

/-! ## Structural lemmas about the aggregator -/

theorem gatedList_pos {name : String} {enabled : List String} (sigs : List Signal)
    (h : name ∈ enabled) : gatedList name enabled sigs = sigs := if_pos h

theorem gatedList_neg {name : String} {enabled : List String} (sigs : List Signal)
    (h : name ∉ enabled) : gatedList name enabled sigs = [] := if_neg h

theorem runTry_append_oks (ls : List (List Signal)) (rest : List (Except PyErr (List Signal))) :
    runTry (ls.map Except.ok ++ rest) = (ls.flatten ++ (runTry rest).1, (runTry rest).2) := by
  induction ls with
  | nil => simp [runTry]
  | cons l ls ih => simp [runTry, ih, List.append_assoc]

theorem runTry_catSteps_mem (df : DataFrame) (symbol : String) (currentPrice : ℚ)
    (levels : Levels) (enabled : List String) (h : "volume_spike" ∈ enabled) :
    runTry (catSteps df symbol currentPrice levels enabled) =
      (preVolumeSignals df symbol currentPrice levels enabled, true) := by
  rw [catSteps, runTry_append_oks, if_pos h]
  simp [runTry, preVolumeSignals]

theorem runTry_catSteps_not (df : DataFrame) (symbol : String) (currentPrice : ℚ)
    (levels : Levels) (enabled : List String) (h : "volume_spike" ∉ enabled) :
    runTry (catSteps df symbol currentPrice levels enabled) =
      (preVolumeSignals df symbol currentPrice levels enabled, false) := by
  rw [catSteps, runTry_append_oks, if_neg h]
  simp [runTry, preVolumeSignals]

theorem tryBody_volume (df : DataFrame) (symbol : String) (currentPrice : ℚ)
    (levels : Levels) (enabled : List String) (h : "volume_spike" ∈ enabled) :
    tryBody df symbol currentPrice levels enabled =
      preVolumeSignals df symbol currentPrice levels enabled := by
  rw [tryBody, runTry_catSteps_mem df symbol currentPrice levels enabled h]

theorem tryBody_no_volume (df : DataFrame) (symbol : String) (currentPrice : ℚ)
    (levels : Levels) (enabled : List String) (h : "volume_spike" ∉ enabled) :
    tryBody df symbol currentPrice levels enabled =
      (if showConfluence = true ∧ "confluence" ∈ enabled ∧
          3 ≤ ((preVolumeSignals df symbol currentPrice levels enabled).map
            (annotateSignal df)).length then
        (preVolumeSignals df symbol currentPrice levels enabled).map (annotateSignal df) ++
          findConfluenceZones
            ((preVolumeSignals df symbol currentPrice levels enabled).map (annotateSignal df))
            currentPrice symbol
      else (preVolumeSignals df symbol currentPrice levels enabled).map (annotateSignal df)) := by
  rw [tryBody, runTry_catSteps_not df symbol currentPrice levels enabled h]

theorem analyzeSymbol_eq (df : DataFrame) (symbol : String) (levels : Levels)
    (enabledOpt : Option (List String)) :
    analyzeSymbol df symbol levels enabledOpt =
      if df.rows.length < 20 then []
      else
        (tryBody df symbol (lastClose df) levels
          (enabledOpt.getD defaultEnabledSignals)).take maxSignalsPerCoin := by
  unfold analyzeSymbol analyzeSymbolE
  by_cases h : df.rows.length < 20
  · rw [if_pos h, if_pos h]
  · rw [if_neg h, if_neg h]
    have hne : df.rows ≠ [] := by
      intro he
      rw [he] at h
      simp at h
    cases e : df.rows.getLast? with
    | none => exact absurd (List.getLast?_eq_none_iff.mp e) hne
    | some c =>
      rw [lastClose, e]
      rfl

/-! ## Which signal types each category step can emit -/

theorem mem_structureBreakSignals {df : DataFrame} {symbol : String} {currentPrice : ℚ}
    {s : Signal} (hs : s ∈ structureBreakSignals df symbol currentPrice) :
    s.stype = "structure_break" := by
  simp only [structureBreakSignals, List.mem_map] at hs
  obtain ⟨b, -, rfl⟩ := hs
  rfl

theorem mem_checkLevelApproach {df : DataFrame} {levels : Levels} {currentPrice : ℚ}
    {symbol : String} {s : Signal} (hs : s ∈ checkLevelApproach df levels currentPrice symbol) :
    s.stype = "level_approach" := by
  simp only [checkLevelApproach, List.mem_append, List.mem_filterMap] at hs
  rcases hs with ⟨a, -, ha⟩ | ⟨a, -, ha⟩ <;>
  · split at ha
    · cases ha
      rfl
    · cases ha

theorem mem_checkBreakouts {df : DataFrame} {levels : Levels} {currentPrice : ℚ}
    {symbol : String} {s : Signal} (hs : s ∈ checkBreakouts df levels currentPrice symbol) :
    s.stype = "breakout" := by
  rw [checkBreakouts] at hs
  split at hs
  · cases hs
  · simp only [List.mem_append, List.mem_filterMap] at hs
    rcases hs with ⟨a, -, ha⟩ | ⟨a, -, ha⟩ <;>
    · split at ha
      · cases ha
        rfl
      · cases ha

theorem mem_checkFalseBreakouts {df : DataFrame} {levels : Levels} {symbol : String}
    {s : Signal} (hs : s ∈ checkFalseBreakouts df levels symbol) :
    s.stype = "false_breakout" := by
  rw [checkFalseBreakouts] at hs
  split at hs
  · cases hs
  · simp only [List.mem_append, List.mem_filterMap] at hs
    rcases hs with ⟨a, -, ha⟩ | ⟨a, -, ha⟩ <;>
    · split at ha
      · cases ha
        rfl
      · cases ha

theorem mem_imbalanceSignals {df : DataFrame} {symbol : String} {currentPrice : ℚ}
    {s : Signal} (hs : s ∈ imbalanceSignals df symbol currentPrice) :
    s.stype = "imbalance" := by
  simp only [imbalanceSignals, List.mem_filterMap] at hs
  obtain ⟨a, -, ha⟩ := hs
  split at ha
  · cases ha
    rfl
  · cases ha

theorem mem_orderBlockSignals {df : DataFrame} {symbol : String} {currentPrice : ℚ}
    {s : Signal} (hs : s ∈ orderBlockSignals df symbol currentPrice) :
    s.stype = "order_block" := by
  simp only [orderBlockSignals, List.mem_map] at hs
  obtain ⟨b, -, rfl⟩ := hs
  rfl

theorem mem_liquiditySweepSignals {df : DataFrame} {symbol : String} {currentPrice : ℚ}
    {s : Signal} (hs : s ∈ liquiditySweepSignals df symbol currentPrice) :
    s.stype = "liquidity_sweep" := by
  simp only [liquiditySweepSignals, List.mem_map] at hs
  obtain ⟨b, -, rfl⟩ := hs
  rfl

theorem mem_divergenceSignals {df : DataFrame} {symbol : String} {currentPrice : ℚ}
    {s : Signal} (hs : s ∈ divergenceSignals df symbol currentPrice) :
    s.stype = "divergence" := by
  simp only [divergenceSignals, List.mem_map] at hs
  obtain ⟨b, -, rfl⟩ := hs
  rfl

theorem mem_patternSignals {df : DataFrame} {symbol : String} {currentPrice : ℚ}
    {s : Signal} (hs : s ∈ patternSignals df symbol currentPrice) :
    s.stype = "pattern" := by
  simp only [patternSignals, List.mem_map] at hs
  obtain ⟨b, -, rfl⟩ := hs
  rfl

theorem mem_preVolumeSignals {df : DataFrame} {symbol : String} {currentPrice : ℚ}
    {levels : Levels} {enabled : List String} {s : Signal}
    (hs : s ∈ preVolumeSignals df symbol currentPrice levels enabled) :
    s.stype ∈ preVolumeTypes := by
  simp only [preVolumeSignals, List.mem_flatten] at hs
  obtain ⟨l, hl, hsl⟩ := hs
  simp only [categoryLists, List.mem_cons, List.not_mem_nil, or_false] at hl
  have hgate : ∀ (name : String) (sigs : List Signal),
      l = gatedList name enabled sigs → s ∈ l → s ∈ sigs := by
    intro name sigs hle hmem
    rw [hle, gatedList] at hmem
    split at hmem
    · exact hmem
    · cases hmem
  rcases hl with h | h | h | h | h | h | h | h | h
  · have := mem_structureBreakSignals (hgate _ _ h hsl)
    simp [preVolumeTypes, this]
  · have := mem_checkLevelApproach (List.mem_of_mem_take (hgate _ _ h hsl))
    simp [preVolumeTypes, this]
  · have := mem_checkBreakouts (List.mem_of_mem_take (hgate _ _ h hsl))
    simp [preVolumeTypes, this]
  · have := mem_checkFalseBreakouts (List.mem_of_mem_take (hgate _ _ h hsl))
    simp [preVolumeTypes, this]
  · have := mem_imbalanceSignals (hgate _ _ h hsl)
    simp [preVolumeTypes, this]
  · have := mem_orderBlockSignals (hgate _ _ h hsl)
    simp [preVolumeTypes, this]
  · have := mem_liquiditySweepSignals (hgate _ _ h hsl)
    simp [preVolumeTypes, this]
  · have := mem_divergenceSignals (hgate _ _ h hsl)
    simp [preVolumeTypes, this]
  · have := mem_patternSignals (hgate _ _ h hsl)
    simp [preVolumeTypes, this]

theorem annotateSignal_stype (df : DataFrame) (s : Signal) :
    (annotateSignal df s).stype = s.stype := rfl

theorem annotateSignal_direction (df : DataFrame) (s : Signal) :
    (annotateSignal df s).direction = s.direction := rfl

theorem mem_preVolume_not_confluence {df : DataFrame} {symbol : String} {currentPrice : ℚ}
    {levels : Levels} {enabled : List String} {s : Signal}
    (hs : s ∈ preVolumeSignals df symbol currentPrice levels enabled) :
    s.stype ≠ "confluence" ∧ s.stype ≠ "volume_spike" := by
  have h := mem_preVolumeSignals hs
  simp only [preVolumeTypes, List.mem_cons, List.not_mem_nil, or_false] at h
  rcases h with h | h | h | h | h | h | h | h | h <;> rw [h] <;> constructor <;> decide

theorem mem_findConfluenceZones {signals : List Signal} {currentPrice : ℚ} {symbol : String}
    {s : Signal} (hs : s ∈ findConfluenceZones signals currentPrice symbol) :
    s.stype = "confluence" ∧ s.priority = "critical" ∧
      ((s.direction = "bullish" ∧
        3 ≤ ((signals.filter fun t => t.direction == "bullish").map Signal.stype).dedup.length) ∨
       (s.direction = "bearish" ∧
        3 ≤ ((signals.filter fun t => t.direction == "bearish").map Signal.stype).dedup.length)) := by
  rw [findConfluenceZones] at hs
  rcases List.mem_append.mp hs with h | h
  · split at h
    · rename_i hcond
      simp only [List.mem_singleton] at h
      subst h
      exact ⟨rfl, rfl, Or.inl ⟨rfl, hcond⟩⟩
    · cases h
  · split at h
    · rename_i hcond
      simp only [List.mem_singleton] at h
      subst h
      exact ⟨rfl, rfl, Or.inr ⟨rfl, hcond⟩⟩
    · cases h

theorem findConfluenceZones_count (signals : List Signal) (currentPrice : ℚ)
    (symbol : String) (d : String) :
    ((findConfluenceZones signals currentPrice symbol).filter fun x =>
        x.stype == "confluence" && x.direction == d).length ≤ 1 := by
  rw [findConfluenceZones]
  rcases eq_or_ne d "bullish" with hd | hd
  · subst hd
    split <;> split <;> simp [mkSignal]
  · rcases eq_or_ne d "bearish" with hd2 | hd2
    · subst hd2
      split <;> split <;> simp [mkSignal]
    · have h1 : (("bullish" : String) == d) = false := beq_eq_false_iff_ne.mpr (Ne.symm hd)
      have h2 : (("bearish" : String) == d) = false := beq_eq_false_iff_ne.mpr (Ne.symm hd2)
      split <;> split <;> simp [mkSignal, h1, h2]

/-- C1: for every input candle series, symbol, levels structure and
enabled-category list, the signal list returned by
`SignalGenerator.analyze_symbol` contains at most `MAX_SIGNALS_PER_COIN`
(default 10) signals, confluence signals counted inside that cap: the
function's final statement truncates whatever `all_signals` holds —
confluence entries included — to that bound. -/
theorem analyzeSymbol_global_cap (df : DataFrame) (symbol : String) (levels : Levels)
    (enabledOpt : Option (List String)) :
    (analyzeSymbol df symbol levels enabledOpt).length ≤ maxSignalsPerCoin := by
  rw [analyzeSymbol_eq]
  split
  · simp [maxSignalsPerCoin]
  · exact List.length_take_le _ _

/-- C4: in every batch returned by `analyze_symbol`, a signal of type
`confluence` carries priority `critical` and coexists with at least 3
non-confluence signals of pairwise distinct types sharing its direction
inside the same batch, and per direction at most one confluence signal is
present. -/
theorem confluence_signals_property (df : DataFrame) (symbol : String) (levels : Levels)
    (enabledOpt : Option (List String)) :
    (∀ s ∈ analyzeSymbol df symbol levels enabledOpt, s.stype = "confluence" →
      s.priority = "critical" ∧
      3 ≤ (((analyzeSymbol df symbol levels enabledOpt).filter fun x =>
        !(x.stype == "confluence") && x.direction == s.direction).map Signal.stype).dedup.length) ∧
    (∀ d : String, ((analyzeSymbol df symbol levels enabledOpt).filter fun x =>
        x.stype == "confluence" && x.direction == d).length ≤ 1) := by
  rw [analyzeSymbol_eq]
  split
  · exact ⟨fun s hs => absurd hs (List.not_mem_nil s), fun d => by simp⟩
  · set cp := lastClose df with hcp
    set enabled := enabledOpt.getD defaultEnabledSignals with hen
    by_cases hv : "volume_spike" ∈ enabled
    · rw [tryBody_volume df symbol cp levels enabled hv]
      have hnc : ∀ s ∈ (preVolumeSignals df symbol cp levels enabled).take maxSignalsPerCoin,
          s.stype ≠ "confluence" :=
        fun s hs => (mem_preVolume_not_confluence (List.mem_of_mem_take hs)).1
      refine ⟨fun s hs hc => absurd hc (hnc s hs), fun d => ?_⟩
      have hfil : ((preVolumeSignals df symbol cp levels enabled).take
          maxSignalsPerCoin).filter (fun x => x.stype == "confluence" && x.direction == d) = [] := by
        rw [List.filter_eq_nil_iff]
        intro a ha
        simp [hnc a ha]
      rw [hfil]
      simp
    · rw [tryBody_no_volume df symbol cp levels enabled hv]
      set ann := (preVolumeSignals df symbol cp levels enabled).map (annotateSignal df) with hann
      have hannst : ∀ s ∈ ann, s.stype ≠ "confluence" := by
        intro s hsa
        rw [hann] at hsa
        obtain ⟨t, ht, rfl⟩ := List.mem_map.mp hsa
        rw [annotateSignal_stype]
        exact (mem_preVolume_not_confluence ht).1
      split
      · -- confluence step extended the batch
        set conf := findConfluenceZones ann cp symbol with hconf
        rw [List.take_append_eq_append_take]
        constructor
        · intro s hs hsc
          rcases List.mem_append.mp hs with h | h
          · exact absurd hsc (hannst s (List.mem_of_mem_take h))
          · have hconfmem : s ∈ conf := List.mem_of_mem_take h
            have hlen : ann.length < maxSignalsPerCoin := by
              by_contra hge
              push_neg at hge
              have hz : maxSignalsPerCoin - ann.length = 0 := by omega
              rw [hz, List.take_zero] at h
              cases h
            have htake : ann.take maxSignalsPerCoin = ann :=
              List.take_of_length_le (le_of_lt hlen)
            obtain ⟨hst, hpr, hdir⟩ := mem_findConfluenceZones hconfmem
            refine ⟨hpr, ?_⟩
            have hfilter : ((ann.take maxSignalsPerCoin ++
                conf.take (maxSignalsPerCoin - ann.length)).filter fun x =>
                  !(x.stype == "confluence") && x.direction == s.direction) =
                ann.filter fun t => t.direction == s.direction := by
              rw [List.filter_append, htake]
              have h1 : (conf.take (maxSignalsPerCoin - ann.length)).filter
                  (fun x => !(x.stype == "confluence") && x.direction == s.direction) = [] := by
                rw [List.filter_eq_nil_iff]
                intro a ha
                have ha2 : a.stype = "confluence" :=
                  (mem_findConfluenceZones (List.mem_of_mem_take ha)).1
                simp [ha2]
              rw [h1, List.append_nil]
              apply List.filter_congr
              intro x hx
              have hx2 : (x.stype == "confluence") = false :=
                beq_eq_false_iff_ne.mpr (hannst x hx)
              simp [hx2]
            rw [hfilter]
            rcases hdir with ⟨hd, hcard⟩ | ⟨hd, hcard⟩ <;> rw [hd] <;> exact hcard
        · intro d
          rw [List.filter_append]
          have h1 : (ann.take maxSignalsPerCoin).filter
              (fun x => x.stype == "confluence" && x.direction == d) = [] := by
            rw [List.filter_eq_nil_iff]
            intro a ha
            simp [hannst a (List.mem_of_mem_take ha)]
          rw [h1, List.nil_append]
          calc ((conf.take (maxSignalsPerCoin - ann.length)).filter
                (fun x => x.stype == "confluence" && x.direction == d)).length
              ≤ (conf.filter (fun x => x.stype == "confluence" && x.direction == d)).length :=
                ((List.take_sublist _ _).filter _).length_le
            _ ≤ 1 := findConfluenceZones_count ann cp symbol d
      · -- no confluence step
        refine ⟨fun s hs hsc => absurd hsc (hannst s (List.mem_of_mem_take hs)), fun d => ?_⟩
        have hfil : ((ann.take maxSignalsPerCoin).filter
            (fun x => x.stype == "confluence" && x.direction == d)) = [] := by
          rw [List.filter_eq_nil_iff]
          intro a ha
          simp [hannst a (List.mem_of_mem_take ha)]
        rw [hfil]
        simp

/-- Members of any `analyze_symbol` batch never carry the `volume_spike`
type: the only step that could create one raises `AttributeError` before
its `_create_signal` call. -/
theorem analyzeSymbol_stype_ne_volume {df : DataFrame} {symbol : String} {levels : Levels}
    {enabledOpt : Option (List String)} {s : Signal}
    (hs : s ∈ analyzeSymbol df symbol levels enabledOpt) : s.stype ≠ "volume_spike" := by
  rw [analyzeSymbol_eq] at hs
  split at hs
  · cases hs
  · set cp := lastClose df
    set enabled := enabledOpt.getD defaultEnabledSignals
    by_cases hv : "volume_spike" ∈ enabled
    · rw [tryBody_volume df symbol cp levels enabled hv] at hs
      exact (mem_preVolume_not_confluence (List.mem_of_mem_take hs)).2
    · rw [tryBody_no_volume df symbol cp levels enabled hv] at hs
      split at hs
      · rcases List.mem_append.mp (List.mem_of_mem_take hs) with h | h
        · obtain ⟨t, ht, rfl⟩ := List.mem_map.mp h
          rw [annotateSignal_stype]
          exact (mem_preVolume_not_confluence ht).2
        · have := (mem_findConfluenceZones h).1
          rw [this]
          decide
      · obtain ⟨t, ht, rfl⟩ := List.mem_map.mp (List.mem_of_mem_take hs)
        rw [annotateSignal_stype]
        exact (mem_preVolume_not_confluence ht).2

/-- C10: `analyze_symbol` is total at its public boundary: for every
candle table, symbol, levels dict and enabled list, the embedded
exception semantics yields `.ok` — the guard protects the single
positional access outside the `try` block and the `except` swallows
everything inside it — and the returned value is the batch list. -/
theorem analyzeSymbol_never_raises (df : DataFrame) (symbol : String) (levels : Levels)
    (enabledOpt : Option (List String)) :
    ∃ out, analyzeSymbolE df symbol levels enabledOpt = Except.ok out ∧
      analyzeSymbol df symbol levels enabledOpt = out := by
  refine ⟨analyzeSymbol df symbol levels enabledOpt, ?_, rfl⟩
  rw [analyzeSymbol]
  cases e : analyzeSymbolE df symbol levels enabledOpt with
  | ok l => rfl
  | error pe =>
    exfalso
    rw [analyzeSymbolE] at e
    split at e
    · cases e
    · rename_i h
      split at e
      · rename_i he
        have hne : df.rows ≠ [] := by
          intro h0
          rw [h0] at h
          simp at h
        exact hne (List.getLast?_eq_none_iff.mp he)
      · cases e

/-- C3: refuted as the code stands — `analyze_symbol` can never emit a
`volume_spike` signal, because step 10 calls
`DataProcessor.detect_volume_anomaly`, a method that does not exist in
the repository, so the attribute lookup raises `AttributeError` whenever
the category is enabled and the signal-creation line is never reached.
In particular the series `dfSpike`, whose latest volume exceeds twice the
trailing 20-candle average (the spec's anomaly condition), yields an
empty batch when only `volume_spike` is enabled instead of the single
medium-priority neutral signal the claim demands. -/
theorem volume_spike_never_emitted :
    (∀ (df : DataFrame) (symbol : String) (levels : Levels)
        (enabledOpt : Option (List String)),
      (analyzeSymbol df symbol levels enabledOpt).countP
        (fun s => s.stype == "volume_spike") = 0) ∧
    detectVolumeAnomalySpec dfSpike = true ∧
    analyzeSymbol dfSpike "SYM" { support := [], resistance := [] }
      (some ["volume_spike"]) = [] := by
  refine ⟨fun df symbol levels enabledOpt => ?_, ?_, ?_⟩
  · rw [List.countP_eq_zero]
    intro s hs
    simpa using analyzeSymbol_stype_ne_volume hs
  · norm_num [detectVolumeAnomalySpec, dfSpike, DataFrame.volumes, lastN, qmean, flatCandle]
  · rw [analyzeSymbol_eq, if_neg (by norm_num [dfSpike])]
    rw [show (some ["volume_spike"]).getD defaultEnabledSignals = ["volume_spike"] from rfl]
    rw [tryBody_volume _ _ _ _ _ (by simp)]
    simp [preVolumeSignals, categoryLists, gatedList]

theorem lastClose_df0 : lastClose df0 = 100 := rfl

theorem checkLevelApproach_df0 : checkLevelApproach df0 lev0 100 "SYM" =
    [mkSignal "SYM" "level_approach" "bullish" 100 (.levelApproachD "support" 100 0) "high"] := by
  norm_num [checkLevelApproach, lev0, roundTo, List.filterMap_cons]

theorem preVolume_df0_volume :
    preVolumeSignals df0 "SYM" 100 lev0 ["level_approach", "volume_spike"] =
      [mkSignal "SYM" "level_approach" "bullish" 100 (.levelApproachD "support" 100 0) "high"] := by
  rw [preVolumeSignals, categoryLists]
  simp [gatedList_pos, gatedList_neg, checkLevelApproach_df0]

theorem preVolume_df0_plain :
    preVolumeSignals df0 "SYM" 100 lev0 ["level_approach"] =
      [mkSignal "SYM" "level_approach" "bullish" 100 (.levelApproachD "support" 100 0) "high"] := by
  rw [preVolumeSignals, categoryLists]
  simp [gatedList_pos, gatedList_neg, checkLevelApproach_df0]

theorem analyzeSymbol_df0_volume :
    analyzeSymbol df0 "SYM" lev0 (some ["level_approach", "volume_spike"]) =
      [mkSignal "SYM" "level_approach" "bullish" 100 (.levelApproachD "support" 100 0) "high"] := by
  rw [analyzeSymbol_eq, if_neg (by norm_num [df0])]
  rw [show (some ["level_approach", "volume_spike"]).getD defaultEnabledSignals =
    ["level_approach", "volume_spike"] from rfl]
  rw [lastClose_df0, tryBody_volume _ _ _ _ _ (by simp), preVolume_df0_volume]
  rfl

theorem analyzeSymbol_df0_plain :
    analyzeSymbol df0 "SYM" lev0 (some ["level_approach"]) =
      [{ mkSignal "SYM" "level_approach" "bullish" 100 (.levelApproachD "support" 100 0) "high" with
          trendAnn := some ⟨"unknown", 0⟩, strengthIdx := some 0 }] := by
  rw [analyzeSymbol_eq, if_neg (by norm_num [df0])]
  rw [show (some ["level_approach"]).getD defaultEnabledSignals = ["level_approach"] from rfl]
  rw [lastClose_df0, tryBody_no_volume _ _ _ _ _ (by simp), preVolume_df0_plain]
  rw [if_neg (by simp)]
  rfl

/-- C2 counterexample: with exactly one failing detector category
(`volume_spike`, whose missing `detect_volume_anomaly` method raises
`AttributeError`), the surviving `level_approach` signal of the same run
comes back WITHOUT its trend annotation, while the identical run with the
failing category absent annotates it — so a single category's exception
does affect the other categories' annotations, contradicting the claim. -/
theorem detector_failure_counterexample :
    (analyzeSymbol df0 "SYM" lev0 (some ["level_approach", "volume_spike"])).map
        Signal.trendAnn = [none] ∧
    (analyzeSymbol df0 "SYM" lev0 (some ["level_approach"])).map Signal.trendAnn =
      [some ⟨"unknown", 0⟩] := by
  rw [analyzeSymbol_df0_volume, analyzeSymbol_df0_plain]
  exact ⟨rfl, rfl⟩

/-- C2 (amended): when the `volume_spike` category is enabled — the one
category whose detector raises — the exception is caught and logged and
the category contributes no signals, but the run is aborted at that
point: the batch is exactly the signals of the categories evaluated
before it, truncated to the global cap, with the annotation pass and the
confluence step skipped. -/
theorem detector_failure_amended (df : DataFrame) (symbol : String) (levels : Levels)
    (enabled : List String) (h20 : 20 ≤ df.rows.length) (hv : "volume_spike" ∈ enabled) :
    analyzeSymbol df symbol levels (some enabled) =
      (preVolumeSignals df symbol (lastClose df) levels enabled).take maxSignalsPerCoin := by
  rw [analyzeSymbol_eq, if_neg (by omega)]
  rw [show (some enabled).getD defaultEnabledSignals = enabled from rfl]
  rw [tryBody_volume _ _ _ _ _ hv]

/-- Witness for the amended C2 at the concrete flat series. -/
theorem detector_failure_amended_witness :
    analyzeSymbol df0 "SYM" lev0 (some ["level_approach", "volume_spike"]) =
      (preVolumeSignals df0 "SYM" (lastClose df0) lev0
        ["level_approach", "volume_spike"]).take maxSignalsPerCoin :=
  detector_failure_amended df0 "SYM" lev0 ["level_approach", "volume_spike"]
    (by norm_num [df0]) (by simp)

theorem lastClose_df4 : lastClose df4 = 100 := rfl

theorem checkLevelApproach_df4 : checkLevelApproach df4 lev4 100 "SYM" =
    [mkSignal "SYM" "level_approach" "bullish" 100 (.levelApproachD "support" 99 1) "high",
     mkSignal "SYM" "level_approach" "bearish" 100
       (.levelApproachD "resistance" (199 / 2) (1 / 2)) "high"] := by
  norm_num [checkLevelApproach, lev4, roundTo, List.filterMap_cons, abs_of_nonneg]

theorem checkBreakouts_df4 : checkBreakouts df4 lev4 100 "SYM" =
    [mkSignal "SYM" "breakout" "bullish" 100 (.breakoutD (199 / 2) false 1) "medium"] := by
  rw [checkBreakouts, if_neg (by decide)]
  norm_num [lev4, df4, c4base, roundTo, List.filterMap_cons, DataFrame.volumes,
    lastN, qmean, flatCandle]

theorem checkFalseBreakouts_df4 : checkFalseBreakouts df4 lev4 "SYM" =
    [mkSignal "SYM" "false_breakout" "bullish" 100 (.falseBreakoutD 99 "support" 97) "high",
     mkSignal "SYM" "false_breakout" "bullish" 100
       (.falseBreakoutD (197 / 2) "support" 97) "high"] := by
  rw [checkFalseBreakouts, if_neg (by decide)]
  norm_num [lev4, df4, c4base, roundTo, List.filterMap_cons, lastN, qmax, qmin,
    lastClose_df4, lastClose]

theorem preVolume_df4 : preVolumeSignals df4 "SYM" 100 lev4 en4 =
    [mkSignal "SYM" "level_approach" "bullish" 100 (.levelApproachD "support" 99 1) "high",
     mkSignal "SYM" "level_approach" "bearish" 100
       (.levelApproachD "resistance" (199 / 2) (1 / 2)) "high",
     mkSignal "SYM" "breakout" "bullish" 100 (.breakoutD (199 / 2) false 1) "medium",
     mkSignal "SYM" "false_breakout" "bullish" 100 (.falseBreakoutD 99 "support" 97) "high",
     mkSignal "SYM" "false_breakout" "bullish" 100
       (.falseBreakoutD (197 / 2) "support" 97) "high"] := by
  rw [preVolumeSignals, categoryLists]
  simp [en4, gatedList_pos, gatedList_neg, checkLevelApproach_df4, checkBreakouts_df4,
    checkFalseBreakouts_df4]

theorem analyzeSymbol_df4 : analyzeSymbol df4 "SYM" lev4 (some en4) =
    [{ mkSignal "SYM" "level_approach" "bullish" 100 (.levelApproachD "support" 99 1) "high" with
        trendAnn := some ⟨"unknown", 0⟩, strengthIdx := some 0 },
     { mkSignal "SYM" "level_approach" "bearish" 100
         (.levelApproachD "resistance" (199 / 2) (1 / 2)) "high" with
        trendAnn := some ⟨"unknown", 0⟩, strengthIdx := some 0 },
     { mkSignal "SYM" "breakout" "bullish" 100 (.breakoutD (199 / 2) false 1) "medium" with
        trendAnn := some ⟨"unknown", 0⟩, strengthIdx := some 0 },
     { mkSignal "SYM" "false_breakout" "bullish" 100
         (.falseBreakoutD 99 "support" 97) "high" with
        trendAnn := some ⟨"unknown", 0⟩, strengthIdx := some 0 },
     { mkSignal "SYM" "false_breakout" "bullish" 100
         (.falseBreakoutD (197 / 2) "support" 97) "high" with
        trendAnn := some ⟨"unknown", 0⟩, strengthIdx := some 0 },
     sC4] := by
  rw [analyzeSymbol_eq, if_neg (by decide)]
  rw [show (some en4).getD defaultEnabledSignals = en4 from rfl]
  rw [lastClose_df4, tryBody_no_volume _ _ _ _ _ (by decide), preVolume_df4]
  rfl

/-- Witness for C4 at the `df4` confluence scenario: the synthesized
bullish confluence signal is critical and rides on 3 distinct bullish
signal types in the same batch. -/
theorem confluence_property_witness :
    sC4.priority = "critical" ∧
    3 ≤ (((analyzeSymbol df4 "SYM" lev4 (some en4)).filter fun x =>
      !(x.stype == "confluence") && x.direction == sC4.direction).map Signal.stype).dedup.length :=
  (confluence_signals_property df4 "SYM" lev4 (some en4)).1 sC4
    (by rw [analyzeSymbol_df4]; simp) rfl

/-- C5: for every three consecutive candles, `find_fair_value_gaps`
records a bullish gap exactly when the older high sits strictly below the
newer low and the relative gap percentage reaches the minimum size, with
the record's `size` equal to that percentage; symmetrically for bearish
gaps; and the spec's synthetic 3-candle scenario (high 100 → low 103.5)
yields exactly one bullish record of size 3.5. -/
theorem fvg_characterization :
    (∀ (df : DataFrame) (minGapSize : ℚ), wellFormedDf df → ∀ (i : Nat) (c1 c3 : Candle),
      2 ≤ i → df.rows[i - 2]? = some c1 → df.rows[i]? = some c3 →
      ((fvgAt df minGapSize i =
          some ⟨"bullish", c1.high, c3.low, (c3.low - c1.high) / c1.high * 100, false⟩) ↔
        (c1.high < c3.low ∧ minGapSize ≤ (c3.low - c1.high) / c1.high * 100)) ∧
      ((fvgAt df minGapSize i =
          some ⟨"bearish", c3.high, c1.low, (c1.low - c3.high) / c3.high * 100, false⟩) ↔
        (c1.low > c3.high ∧ minGapSize ≤ (c1.low - c3.high) / c3.high * 100))) ∧
    findFairValueGaps gapDf = [⟨"bullish", 100, 207 / 2, 7 / 2, false⟩] := by
  constructor
  · intro df minGapSize hwf i c1 c3 h2 e1 e3
    have hi : i < df.rows.length := by
      by_contra hge
      push_neg at hge
      rw [List.getElem?_eq_none hge] at e3
      cases e3
    have hc1 : df.rows.getD (i - 2) dummyCandle = c1 := by
      rw [List.getD_eq_getElem?_getD, e1]
      rfl
    have hc3 : df.rows.getD i dummyCandle = c3 := by
      rw [List.getD_eq_getElem?_getD, e3]
      rfl
    have hw1 := hwf c1 (List.getElem?_mem e1)
    have hw3 := hwf c3 (List.getElem?_mem e3)
    rw [fvgAt, if_pos ⟨h2, hi⟩, hc1, hc3]
    dsimp only
    constructor
    · constructor
      · intro he
        split_ifs at he with hb hs hr hs2 <;>
          first
          | exact ⟨hb, hs⟩
          | exact ⟨hr, hs2⟩
          | cases he
          | exact absurd he (by simp)
      · rintro ⟨hb, hs⟩
        rw [if_pos hb, if_pos hs]
    · constructor
      · intro he
        split_ifs at he with hb hs hr hs2 <;>
          first
          | exact ⟨hr, hs2⟩
          | cases he
          | exact absurd he (by simp)
      · rintro ⟨hr, hs⟩
        have hnb : ¬(c1.high < c3.low) := by
          push_neg
          calc c3.low ≤ c3.high := hw3.2
            _ ≤ c1.low := le_of_lt hr
            _ ≤ c1.high := hw1.2
        rw [if_neg hnb, if_pos hr, if_pos hs]
  · norm_num [findFairValueGaps, fvgAt, gapDf, fvgMinSize, List.range_succ,
      List.filterMap_cons, List.getD]

/-- Witness for C5: the synthetic gap frame, at index 2, produces exactly
the bullish record the characterization predicts. -/
theorem fvg_characterization_witness :
    fvgAt gapDf fvgMinSize 2 =
      some ⟨"bullish", (Candle.mk (199 / 2) 100 99 100 100).high,
        (Candle.mk 104 (209 / 2) (207 / 2) 104 100).low,
        ((Candle.mk 104 (209 / 2) (207 / 2) 104 100).low -
          (Candle.mk (199 / 2) 100 99 100 100).high) /
          (Candle.mk (199 / 2) 100 99 100 100).high * 100, false⟩ :=
  ((fvg_characterization.1 gapDf fvgMinSize
      (by norm_num [wellFormedDf, gapDf]) 2
      ⟨199 / 2, 100, 99, 100, 100⟩ ⟨104, 209 / 2, 207 / 2, 104, 100⟩
      (by norm_num) rfl rfl).1).mpr (by norm_num [fvgMinSize])

/-- C6 counterexample: `detect_break_of_structure` does modify the
caller's table — already on a one-candle frame it assigns the
`swing_high` (and three sibling) columns in place, so the frame after the
call differs from the frame before it. -/
theorem detector_mutation_counterexample :
    ¬((detectBreakOfStructureFrame dfTiny).1 = dfTiny ∧
      (findLiquidityZonesFrame dfTiny).1 = dfTiny) := by
  rintro ⟨h1, -⟩
  have h2 := congrArg DataFrame.swingHighCol h1
  rw [show (detectBreakOfStructureFrame dfTiny).1.swingHighCol =
      some (rollCenterMax dfTiny.highs 5) from rfl] at h2
  rw [show dfTiny.swingHighCol = none from rfl] at h2
  cases h2

/-- C6 (amended): the detectors leave the OHLCV rows (and hence every
candle value) untouched and their record lists are pure functions of
those rows, but `detect_break_of_structure` appends the four
`swing_high`/`swing_low`/`is_swing_high`/`is_swing_low` helper columns
and `find_liquidity_zones` the four `prev_high`/`next_high`/`prev_low`/
`next_low` shifted columns onto the caller's table. -/
theorem detector_mutation_amended (df : DataFrame) :
    (detectBreakOfStructureFrame df).1.rows = df.rows ∧
    (detectBreakOfStructureFrame df).1.swingHighCol = some (rollCenterMax df.highs 5) ∧
    (detectBreakOfStructureFrame df).1.swingLowCol = some (rollCenterMin df.lows 5) ∧
    (detectBreakOfStructureFrame df).1.isSwingHighCol =
      some ((df.highs.zip (rollCenterMax df.highs 5)).map fun p => p.2 == some p.1) ∧
    (detectBreakOfStructureFrame df).1.isSwingLowCol =
      some ((df.lows.zip (rollCenterMin df.lows 5)).map fun p => p.2 == some p.1) ∧
    (detectBreakOfStructureFrame df).2 = detectBreakOfStructure df ∧
    (findLiquidityZonesFrame df).1.rows = df.rows ∧
    (findLiquidityZonesFrame df).1.prevHighCol = some (shiftPrevCol df.highs) ∧
    (findLiquidityZonesFrame df).1.nextHighCol = some (shiftNextCol df.highs) ∧
    (findLiquidityZonesFrame df).1.prevLowCol = some (shiftPrevCol df.lows) ∧
    (findLiquidityZonesFrame df).1.nextLowCol = some (shiftNextCol df.lows) ∧
    (findLiquidityZonesFrame df).2 = findLiquidityZones df :=
  ⟨rfl, rfl, rfl, rfl, rfl, rfl, rfl, rfl, rfl, rfl, rfl, rfl⟩

/-- C7: every detector returns an empty result below its minimum length —
triangles and double top/bottom below 50 candles, head-and-shoulders
below 100, flags below 30, RSI/MACD divergence below 50, and the whole
aggregator below 20 — and, being total functions of the table, none of
them can raise. -/
theorem short_series_detectors_empty :
    (∀ df : DataFrame, df.rows.length < 50 →
      findTriangles df = [] ∧ findDoubleTopBottom df = [] ∧
      findRsiDivergence df = [] ∧ findMacdDivergence df = []) ∧
    (∀ df : DataFrame, df.rows.length < 100 → findHeadAndShoulders df = []) ∧
    (∀ df : DataFrame, df.rows.length < 30 → findFlagsAndPennants df = []) ∧
    (∀ (df : DataFrame) (symbol : String) (levels : Levels)
        (enabledOpt : Option (List String)), df.rows.length < 20 →
      analyzeSymbol df symbol levels enabledOpt = []) := by
  refine ⟨fun df h => ⟨?_, ?_, ?_, ?_⟩, fun df h => ?_, fun df h => ?_,
    fun df symbol levels enabledOpt h => ?_⟩
  · rw [findTriangles, if_pos h]
  · rw [findDoubleTopBottom, if_pos h]
  · rw [findRsiDivergence]
    cases df.rsiCol with
    | none => rfl
    | some rsis => simp only [if_pos h]
  · rw [findMacdDivergence]
    cases df.macdCol with
    | none => rfl
    | some macds => simp only [if_pos h]
  · rw [findHeadAndShoulders, if_pos h]
  · rw [findFlagsAndPennants, if_pos h]
  · rw [analyzeSymbol_eq, if_pos h]

/-- Witness for C7 at the one-candle frame. -/
theorem short_series_detectors_empty_witness :
    findTriangles dfTiny = [] ∧ findHeadAndShoulders dfTiny = [] ∧
    findFlagsAndPennants dfTiny = [] ∧
    analyzeSymbol dfTiny "SYM" {} none = [] :=
  ⟨(short_series_detectors_empty.1 dfTiny (by decide)).1,
   short_series_detectors_empty.2.1 dfTiny (by decide),
   short_series_detectors_empty.2.2.1 dfTiny (by decide),
   short_series_detectors_empty.2.2.2 dfTiny "SYM" {} none (by decide)⟩

/-- C8 counterexample: on the strictly increasing 14-close series, at
index 13 the rolling 14-period average loss is exactly zero, yet the RSI
value the code computes is the DEFINED number 100 (via
`rs = gain/0 = +inf`, `100 - 100/(1+inf) = 100`), not a NaN-equivalent
marker as the claim states. -/
theorem rsi_zero_loss_counterexample :
    rsiLossAvgAt inc14 14 13 = PValue.num 0 ∧
    rsiAt inc14 14 13 = PValue.num 100 ∧ PValue.num 100 ≠ PValue.nan := by
  refine ⟨?_, ?_, by decide⟩
  · norm_num [rsiLossAvgAt, rollMeanAt, rsiLosses, inc14, List.range_succ, qmean, List.getD]
  · norm_num [rsiAt, rsiGainAvgAt, rsiLossAvgAt, rollMeanAt, rsiGains, rsiLosses, inc14,
      List.range_succ, qmean, List.getD, PValue.div, PValue.add, PValue.sub]

/-- C8 (amended): at any candle where the rolling 14-period average loss
is zero, RSI is the defined value 100 when the average gain is positive
(the ratio is `+inf`, not NaN) and is NaN only when the average gain is
zero as well; the computation is a total function and never raises. -/
theorem rsi_zero_loss_amended (closes : List ℚ) (i : Nat) (g : ℚ)
    (hl : rsiLossAvgAt closes 14 i = PValue.num 0)
    (hg : rsiGainAvgAt closes 14 i = PValue.num g) :
    (0 < g → rsiAt closes 14 i = PValue.num 100) ∧
    (g = 0 → rsiAt closes 14 i = PValue.nan) := by
  constructor <;> intro hgv
  · rw [rsiAt, hl, hg]
    have h1 : PValue.div (.num g) (.num 0) = .pinf := by
      simp only [PValue.div]
      rw [if_neg (by norm_num), if_pos hgv]
    rw [h1]
    simp only [PValue.add, PValue.div, PValue.sub]
    norm_num
  · subst hgv
    rw [rsiAt, hl, hg]
    have h1 : PValue.div (.num 0) (.num 0) = .nan := by
      simp only [PValue.div]
      rw [if_neg (by norm_num), if_neg (by norm_num), if_neg (by norm_num)]
    rw [h1]
    simp only [PValue.add, PValue.div, PValue.sub]

/-- Witness for the amended C8 at the strictly increasing series, where
the average gain is the positive value 13/14. -/
theorem rsi_zero_loss_amended_witness :
    (0 < (13 : ℚ) / 14 → rsiAt inc14 14 13 = PValue.num 100) ∧
    ((13 : ℚ) / 14 = 0 → rsiAt inc14 14 13 = PValue.nan) :=
  rsi_zero_loss_amended inc14 13 (13 / 14)
    (by norm_num [rsiLossAvgAt, rollMeanAt, rsiLosses, inc14, List.range_succ, qmean,
      List.getD])
    (by norm_num [rsiGainAvgAt, rollMeanAt, rsiGains, inc14, List.range_succ, qmean,
      List.getD])

/-- C9 counterexample: on four evaluated timeframes whose trends are
three times `sideways` and once `uptrend`, the code's alignment score is
25 (max of uptrend/downtrend counts), while the claim's "count of the
majority trend direction" (`sideways`, 3 of 4) would give 75: the code
never counts a sideways/neutral majority. -/
theorem alignment_sideways_counterexample :
    alignmentScore exEntries = 25 ∧ alignmentScoreSpec exEntries = 75 := by
  constructor
  · simp only [alignmentScore, exEntries, tfSideways, tfUptrend, List.count_cons,
      List.count_nil, List.map_cons, List.map_nil, List.isEmpty_cons, List.length_cons,
      List.length_nil, beq_iff_eq, String.reduceEq]
    norm_num [roundTo]
  · simp only [alignmentScoreSpec, exEntries, tfSideways, tfUptrend, List.count_cons,
      List.count_nil, List.map_cons, List.map_nil, List.isEmpty_cons, List.length_cons,
      List.length_nil, beq_iff_eq, String.reduceEq, List.foldr_cons, List.foldr_nil]
    norm_num

/-- C9 (amended): timeframes with fewer than 50 candles are skipped
(no per-timeframe entry, the run continues over the rest), and the
alignment score equals `max(uptrend count, downtrend count)` over the
evaluated timeframes divided by their number, times 100 (rounded to two
decimals) — sideways and neutral trends never count as the majority. -/
theorem mtf_skip_and_alignment_amended :
    (∀ df : DataFrame, df.rows.length < 50 → analyzeTimeframe (some df) = none) ∧
    (∀ (pre post : List (String × Option DataFrame)) (name : String) (df : DataFrame),
      df.rows.length < 50 →
      mtfEntries (pre ++ (name, some df) :: post) = mtfEntries (pre ++ post)) ∧
    (∀ tfs : List (String × TfEntry), tfs ≠ [] →
      alignmentScore tfs =
        roundTo ((max ((tfs.map fun p => p.2.trend).count "uptrend")
          ((tfs.map fun p => p.2.trend).count "downtrend") : ℚ) / tfs.length * 100) 2) := by
  refine ⟨fun df h => ?_, fun pre post name df h => ?_, fun tfs h => ?_⟩
  · simp [analyzeTimeframe, h]
  · simp [mtfEntries, analyzeTimeframe, h, List.filterMap_append, List.filterMap_cons]
  · rw [alignmentScore, if_neg (by simp [h])]
    simp

/-- Witness for the amended C9: the one-candle frame is skipped, and on
the four concrete timeframe entries the alignment formula holds. -/
theorem mtf_skip_alignment_witness :
    analyzeTimeframe (some dfTiny) = none ∧
    alignmentScore exEntries =
      roundTo ((max ((exEntries.map fun p => p.2.trend).count "uptrend")
        ((exEntries.map fun p => p.2.trend).count "downtrend") : ℚ) /
        exEntries.length * 100) 2 :=
  ⟨mtf_skip_and_alignment_amended.1 dfTiny (by decide),
   mtf_skip_and_alignment_amended.2.2 exEntries (by decide)⟩
